import Mathlib

set_option autoImplicit false

/-
  Verification development for the aiodabpumps library.

  The model below is a shallow embedding of src/aiodabpumps/dabpumps_api.py.
  Asynchronous methods of the DabPumpsApi class become pure functions over an
  explicit state (St).  Each modelled operation returns a triple
  (Except ApiErr result, final state, event trace): the Except value models
  the Python return value or raised exception, and the event trace records the
  externally observable actions (HTTP requests issued, cookie mutations,
  diagnostics-callback invocations, flow attempts of the login loop).

  The repository imports a transport-adapter module (dabpumps_client.py:
  DabPumpsClient_Httpx / DabPumpsClient_Aiohttp) that is not part of the
  sources given; those primitives are modelled from the specification and are
  marked "Modelled from the spec:" in their doc comments.  Everything else is
  translated from dabpumps_api.py / dabpumps_const.py.
-/

/-- A small model of decoded JSON values, as produced by the JSON decoders the
library consumes (dict/list/str/int/bool/None). -/
inductive Json where
  | null
  | bool (b : Bool)
  | num (n : Int)
  | str (s : String)
  | arr (items : List Json)
  | obj (fields : List (String × Json))

mutual

/-- Structural equality on JSON values, modelling Python equality on decoded
JSON data. -/
def Json.beq : Json → Json → Bool
  | .null, .null => true
  | .bool a, .bool b => a == b
  | .num a, .num b => a == b
  | .str a, .str b => a == b
  | .arr a, .arr b => Json.beqList a b
  | .obj a, .obj b => Json.beqFields a b
  | _, _ => false

/-- Elementwise equality of JSON arrays. -/
def Json.beqList : List Json → List Json → Bool
  | [], [] => true
  | x :: xs, y :: ys => Json.beq x y && Json.beqList xs ys
  | _, _ => false

/-- Elementwise equality of JSON object field lists. -/
def Json.beqFields : List (String × Json) → List (String × Json) → Bool
  | [], [] => true
  | (k, v) :: xs, (l, w) :: ys => k == l && Json.beq v w && Json.beqFields xs ys
  | _, _ => false

end

instance : BEq Json := ⟨Json.beq⟩

/-- Python truthiness of a decoded JSON value: None, False, 0, the empty
string, the empty list and the empty dict are falsy. -/
def Json.truthy : Json → Bool
  | .null => false
  | .bool b => b
  | .num n => n != 0
  | .str s => !s.isEmpty
  | .arr items => !items.isEmpty
  | .obj fields => !fields.isEmpty

/-- Field lookup on a JSON object, modelling Python dict.get(k): returns the
first field with the given name, none when absent or when the value is not an
object. -/
def Json.get (j : Json) (k : String) : Option Json :=
  match j with
  | .obj fields => (fields.find? (fun kv => kv.1 == k)).map (fun kv => kv.2)
  | _ => none

/-- Models the Python idiom x.get(k) or "" for string-typed fields (the
access tokens of this protocol are strings): yields the string when the field
is present and a string, and the empty string otherwise. -/
def jstrOrEmpty : Option Json → String
  | some (.str s) => s
  | _ => ""

/-- A crude rendering of a JSON value, modelling the Python str() conversions
used when interpolating response fields into error messages.  The protocol
only ever puts strings there; composite values get a placeholder. -/
def Json.display : Json → String
  | .null => "None"
  | .bool true => "True"
  | .bool false => "False"
  | .num n => toString n
  | .str s => s
  | .arr _ => "<list>"
  | .obj _ => "<dict>"

/-- The enumeration of login methods used by DabPumpsApi.async_login.  The
API_LOGIN enum itself lives in the version of dabpumps_const.py that matches
dabpumps_api.py; its members are taken from their uses in async_login. -/
inductive API_LOGIN where
  | DABLIVE_APP_1
  | DABLIVE_APP_0
  | DCONNECT_APP
  | DCONNECT_WEB
deriving DecidableEq, Repr

/-- The closed error taxonomy of the library (the exception classes at the
bottom of dabpumps_api.py), plus two constructors that model exceptions not
belonging to the library: typeErr for Python-level errors such as calling
.get on a non-dict response, and transportError for exceptions raised by the
underlying HTTP engine itself. -/
inductive ApiErr where
  | authError (msg : String)
  | rightsError (msg : String)
  | apiError (msg : String)
  | dataError (msg : String)
  | typeErr (msg : String)
  | transportError (msg : String)
deriving DecidableEq, Repr

/-- A normalized HTTP request as built by the api methods: method, url, query
parameters and form/json body entries. -/
structure Request where
  method : String
  url : String
  params : List (String × String) := []
  data : List (String × String) := []
deriving DecidableEq, Repr

/-- The value _async_send_request hands back to its callers: decoded text,
decoded JSON, or nothing (the Python function returns None then). -/
inductive SendValue where
  | text (s : String)
  | json (j : Json)
  | empty

/-- The body part of a normalized transport response. -/
inductive RespBody where
  | text (s : String)
  | json (j : Json)
  | empty

/-- Modelled from the spec: the normalized response produced by the missing
transport adapter (dabpumps_client.py).  Per spec section 4.1 it carries a
success flag (2xx status), the observed status, and a decoded body; the
setCookies component models cookies the server sets on this response, which
the adapter stores in its cookie jar. -/
structure ClientResponse where
  success : Bool
  status : String
  body : RespBody
  setCookies : List ((String × String) × String) := []

/-- One scripted behaviour of the transport for one request: either a
normalized response is returned, or the transport itself raises (spec section
4.1: true transport failure such as DNS/TLS/connection errors). -/
inductive ScriptItem where
  | resp (r : ClientResponse)
  | raise (e : ApiErr)

/-- Observable events of a run: HTTP requests issued, cookies received from
responses, diagnostics-callback invocations, cookie writes performed by the
api code, cookie-store clears, and the start/failure of login-flow attempts.
The attempt event records the cookie store as it is when the flow attempt
begins. -/
inductive Event where
  | request (req : Request)
  | recvCookies (cs : List ((String × String) × String))
  | diag (context : String)
  | setCookie (domain name value : String)
  | clear
  | attempt (m : API_LOGIN) (cookies : List ((String × String) × String))
  | attemptFailed (m : API_LOGIN) (e : ApiErr)

/-- Python-dict style lookup in an association list. -/
def dictGet {κ α : Type} [BEq κ] (m : List (κ × α)) (k : κ) : Option α :=
  (m.find? (fun kv => kv.1 == k)).map (fun kv => kv.2)

/-- Python-dict style insertion in an association list: replaces the value of
an existing key in place, appends a new key at the end. -/
def dictSet {κ α : Type} [BEq κ] (m : List (κ × α)) (k : κ) (v : α) : List (κ × α) :=
  if m.any (fun kv => kv.1 == k) then
    m.map (fun kv => if kv.1 == k then (k, v) else kv)
  else
    m ++ [(k, v)]

/-- Python dict.update: merge the new entries into the map left to right. -/
def dictUpdate {κ α : Type} [BEq κ] (m new : List (κ × α)) : List (κ × α) :=
  new.foldl (fun acc kv => dictSet acc kv.1 kv.2) m

/-- DabPumpsInstall record (namedtuple in the source).  Fields hold the JSON
values taken from the payload; devices holds the computed device count. -/
structure DabPumpsInstall where
  id : Json
  name : Json
  description : Json
  company : Json
  address : Json
  role : Json
  devices : Nat

/-- DabPumpsDevice record (namedtuple in the source). -/
structure DabPumpsDevice where
  id : Json
  serial : Json
  name : Json
  vendor : String
  product : Json
  version : Json
  config_id : Json
  install_id : Json

/-- DabPumpsConfig record (namedtuple in the source); the meta_params mapping
is not needed by the verified operations and is represented by its raw
metadata payload. -/
structure DabPumpsConfig where
  id : Json
  label : Json
  description : Json

/-- DabPumpsStatus record (namedtuple in the source). -/
structure DabPumpsStatus where
  serial : String
  key : String
  val : Json

/-- DabPumpsRet selector for what a fetch operation returns. -/
inductive DabPumpsRet where
  | NONE
  | DATA
  | RAW
  | BOTH
deriving DecidableEq, Repr

/-- The value returned by a fetch operation: the processed data, the raw
payload, both, or None (the Python match statements have no NONE arm and then
return None). -/
inductive FetchResult (α : Type) where
  | data (a : α)
  | raw (j : Json)
  | both (a : α) (j : Json)
  | empty

/-- The state of one DabPumpsApi instance together with its transport
adapter: configured credentials, the cookie jar and the scripted behaviour of
the network, the remembered login method, the cached data maps with their
timestamps, the registered diagnostics callback, and the current clock
(seconds, used both by time.time() and as the stored timestamp value). -/
structure St where
  username : String
  password : String
  now : Int
  cookies : List ((String × String) × String)
  script : List ScriptItem
  login_method : Option API_LOGIN
  install_map : List (Json × DabPumpsInstall)
  install_map_ts : Int
  device_map : List (Json × DabPumpsDevice)
  device_map_ts : Int
  config_map : List (Json × DabPumpsConfig)
  config_map_ts : Int
  status_map : List (String × DabPumpsStatus)
  status_map_ts : Int
  user_role : Json
  user_role_ts : Int
  diag_registered : Bool

/-- The result triple of one modelled api call: Python return value or raised
exception, final state, and the trace of observable events. -/
abbrev Res (α : Type) := Except ApiErr α × St × List Event

/-- DABPUMPS_SSO_URL from dabpumps_const.py. -/
def DABPUMPS_SSO_URL : String := "https://dabsso.dabpumps.com"

/-- DABPUMPS_API_URL: the DConnect API base url (DCONNECT_API_URL in the
constants file shipped with the sources). -/
def DABPUMPS_API_URL : String := "https://dconnect.dabpumps.com"

/-- DABPUMPS_API_DOMAIN: the cookie domain of the API (DCONNECT_API_DOMAIN in
the constants file shipped with the sources). -/
def DABPUMPS_API_DOMAIN : String := "dconnect.dabpumps.com"

/-- DABPUMPS_API_TOKEN_COOKIE: the name of the cookie carrying the bearer
token (DCONNECT_ACCESS_TOKEN_COOKIE in the constants file shipped with the
sources). -/
def DABPUMPS_API_TOKEN_COOKIE : String := "dabcsauthtoken"

/-- DABPUMPS_API_TOKEN_TIME_MIN from dabpumps_const.py: seconds remaining
below which a re-login is performed. -/
def DABPUMPS_API_TOKEN_TIME_MIN : Int := 10

/-- Apply the cookies a response sets to the cookie jar. -/
def applyCookies (jar : List ((String × String) × String))
    (cs : List ((String × String) × String)) : List ((String × String) × String) :=
  cs.foldl (fun acc kv => dictSet acc kv.1 kv.2) jar

/-- Modelled from the spec: DabPumpsClient.async_get_cookie of the missing
dabpumps_client.py, a pure lookup in the adapter's cookie store. -/
def client_get_cookie (domain name : String) (st : St) : Option String :=
  dictGet st.cookies (domain, name)

/-- Modelled from the spec: DabPumpsClient.async_set_cookie of the missing
dabpumps_client.py, storing one cookie value in the adapter's cookie store. -/
def client_set_cookie (domain name value : String) (st : St) : Res Unit :=
  (.ok (), { st with cookies := dictSet st.cookies (domain, name) value },
   [Event.setCookie domain name value])

/-- Modelled from the spec: DabPumpsClient.async_clear_cookies of the missing
dabpumps_client.py, forgetting all cookies without tearing down the
transport. -/
def client_clear_cookies (st : St) : Res Unit :=
  (.ok (), { st with cookies := [] }, [Event.clear])

/-- Modelled from the spec: DabPumpsClient.async_send_request of the missing
dabpumps_client.py.  The next scripted item decides the outcome: either a
normalized response is returned (never raising on a non-2xx status, spec
section 4.1) after storing any cookies the server set, or the transport
itself raises.  An exhausted script behaves as an unreachable server
returning a failed response. -/
def client_send_request (req : Request) (st : St) : Res ClientResponse :=
  match st.script with
  | [] =>
      (.ok { success := false, status := "599 no response", body := .empty },
       st, [Event.request req])
  | .resp r :: rest =>
      (.ok r,
       { st with script := rest, cookies := applyCookies st.cookies r.setCookies },
       [Event.request req, Event.recvCookies r.setCookies])
  | .raise e :: rest =>
      (.error e, { st with script := rest }, [Event.request req])

namespace DabPumpsApi

/-- DabPumpsApi.create_id: join the arguments with underscores, strip
leading/trailing underscores, turn spaces into underscores, lowercase, and
drop every character outside [a-z0-9_-]. -/
def isAllowedIdChar (c : Char) : Bool :=
  (Char.ofNat 97 ≤ c && c ≤ Char.ofNat 122) ||
  (Char.ofNat 48 ≤ c && c ≤ Char.ofNat 57) ||
  c = '_' || c = '-'

/-- DabPumpsApi.create_id translated from the source (the *args tuple becomes
a list of strings). -/
def create_id (args : List String) : String :=
  let joined := "_".intercalate args
  let stripped := ((joined.data.dropWhile (fun c => c = '_')).reverse.dropWhile
      (fun c => c = '_')).reverse
  let spaced := stripped.map (fun c => if c = ' ' then '_' else c)
  String.mk ((spaced.map Char.toLower).filter isAllowedIdChar)

/-- DabPumpsApi._async_update_diagnostics: invoke the registered diagnostics
callback, when one is set, with the given context label.  The callback
invocation is recorded as a diag event; it does not change the api state. -/
def _async_update_diagnostics (context : String) (st : St) : Res Unit :=
  (.ok (), st, if st.diag_registered then [Event.diag context] else [])

/-- The response check of DabPumpsApi._async_send_request (the error
classifier): a failed transport status raises the generic api error; a JSON
body whose res field is truthy and differs from OK raises the rights error
for code FORBIDDEN and the generic api error (naming res, code, msg and the
url) otherwise; otherwise the text, JSON or empty body is handed back. -/
def classifyResponse (req : Request) (resp : ClientResponse) : Except ApiErr SendValue :=
  if resp.success = false then
    .error (.apiError ("Unable to perform request, got response " ++ resp.status ++
      " while trying to reach " ++ req.url))
  else
    match resp.body with
    | .text s => .ok (.text s)
    | .json j =>
      match j.get "res" with
      | some r =>
        if r.truthy && !(Json.beq r (Json.str "OK")) then
          let code := (j.get "code").getD (Json.str "")
          let msg := (j.get "msg").getD (Json.str "")
          if Json.beq code (Json.str "FORBIDDEN") then
            .error (.rightsError ("Authorization failed: " ++ r.display ++ " " ++
              code.display ++ " " ++ msg.display))
          else
            .error (.apiError ("Unable to perform request, got response " ++
              r.display ++ " " ++ code.display ++ " " ++ msg.display ++
              " while trying to reach " ++ req.url))
        else .ok (.json j)
      | none => .ok (.json j)
    | .empty => .ok .empty

/-- DabPumpsApi._async_send_request: send one request through the transport
adapter; when the transport itself raises, the exception propagates and the
diagnostics callback is not reached; otherwise the diagnostics callback is
invoked and the response is classified. -/
def _async_send_request (context : String) (req : Request) (st : St) : Res SendValue :=
  match client_send_request req st with
  | (.error e, st1, tr1) => (.error e, st1, tr1)
  | (.ok resp, st1, tr1) =>
    let d := _async_update_diagnostics context st1
    (classifyResponse req resp, d.2.1, tr1 ++ d.2.2)

/-- DabPumpsApi.async_logout: forget all cookies, keep the transport. -/
def async_logout (st : St) : Res Unit :=
  client_clear_cookies st

/-- DabPumpsApi._async_login_dablive_app: POST the credentials to the token
endpoint, extract access_token from the JSON response, raise the auth error
when it is absent, otherwise store the token as the api cookie. -/
def _async_login_dablive_app (isDabLive : Int) (st : St) : Res Unit :=
  let req : Request :=
    { method := "POST", url := DABPUMPS_API_URL ++ "/auth/token",
      params := [("isDabLive", toString isDabLive)],
      data := [("username", st.username), ("password", st.password)] }
  match _async_send_request ("login DabLive_app (isDabLive=" ++ toString isDabLive ++ ")") req st with
  | (.error e, st1, tr1) => (.error e, st1, tr1)
  | (.ok result, st1, tr1) =>
    match result with
    | .json j =>
      let token := jstrOrEmpty (j.get "access_token")
      if token = "" then
        (.error (.authError ("No access token found in response from " ++ req.url)), st1, tr1)
      else
        let (_, st2, tr2) := client_set_cookie DABPUMPS_API_DOMAIN DABPUMPS_API_TOKEN_COOKIE token st1
        (.ok (), st2, tr1 ++ tr2)
    | _ => (.error (.typeErr "login response is not a JSON object"), st1, tr1)

/-- DabPumpsApi._async_login_dconnect_app: obtain a token from the SSO
password-grant endpoint, raise the auth error when access_token is absent,
validate the token against the api, and only then store it as the cookie. -/
def _async_login_dconnect_app (st : St) : Res Unit :=
  let req1 : Request :=
    { method := "POST",
      url := DABPUMPS_SSO_URL ++ "/auth/realms/dwt-group/protocol/openid-connect/token",
      data := [("client_id", "DWT-Dconnect-Mobile"),
               ("client_secret", "ce2713d8-4974-4e0c-a92e-8b942dffd561"),
               ("scope", "openid"), ("grant_type", "password"),
               ("username", st.username), ("password", st.password)] }
  match _async_send_request "login DConnect_app" req1 st with
  | (.error e, st1, tr1) => (.error e, st1, tr1)
  | (.ok result, st1, tr1) =>
    match result with
    | .json j =>
      let token := jstrOrEmpty (j.get "access_token")
      if token = "" then
        (.error (.authError ("No access token found in response from " ++ req1.url)), st1, tr1)
      else
        let req2 : Request :=
          { method := "GET", url := DABPUMPS_API_URL ++ "/api/v1/token/validatetoken",
            params := [("email", st.username), ("token", token)] }
        match _async_send_request "login DConnect_app validatetoken" req2 st1 with
        | (.error e, st2, tr2) => (.error e, st2, tr1 ++ tr2)
        | (.ok _, st2, tr2) =>
          let (_, st3, tr3) := client_set_cookie DABPUMPS_API_DOMAIN DABPUMPS_API_TOKEN_COOKIE token st2
          (.ok (), st3, tr1 ++ tr2 ++ tr3)
    | _ => (.error (.typeErr "login response is not a JSON object"), st1, tr1)

/-- One step of the regular-expression match for the login-form action: match
an optional whitespace character followed by the given symbol, with the
backtracking behaviour of a lazy optional. -/
def expectSym (sym : Char) : List Char → Option (List Char)
  | c :: rest =>
    if c = sym then some rest
    else if c = ' ' || c = '\t' || c = '\n' || c = '\r' then
      match rest with
      | d :: rest2 => if d = sym then some rest2 else none
      | [] => none
    else none
  | [] => none

/-- The lazy capture group of the action pattern: the characters up to the
next double quote; a newline or the end of input before the quote makes the
match fail (a dot does not match newlines). -/
def takeCapture : List Char → Option (List Char)
  | [] => none
  | c :: rest =>
    if c = '"' then some []
    else if c = '\n' then none
    else (takeCapture rest).map (fun cs => c :: cs)

/-- Try to match the action pattern at the current position. -/
def matchActionAt (cs : List Char) : Option (List Char) :=
  match cs with
  | 'a' :: 'c' :: 't' :: 'i' :: 'o' :: 'n' :: rest =>
    match expectSym '=' rest with
    | none => none
    | some r1 =>
      match expectSym '"' r1 with
      | none => none
      | some r2 => takeCapture r2
  | _ => none

/-- re.search of the action pattern: scan positions left to right and return
the first capture. -/
def searchAction : List Char → Option (List Char)
  | [] => none
  | c :: rest =>
    match matchActionAt (c :: rest) with
    | some cap => some cap
    | none => searchAction rest

/-- str.replace of the HTML entity amp by an ampersand, left to right. -/
def replaceAmp : List Char → List Char
  | '&' :: 'a' :: 'm' :: 'p' :: ';' :: rest => '&' :: replaceAmp rest
  | c :: rest => c :: replaceAmp rest
  | [] => []

/-- DabPumpsApi._async_login_dconnect_web: fetch the login page, extract the
form action url by regular expression (raising the auth error when there is
no match), POST the credentials to the extracted url, and verify success by
the presence of the token cookie (raising the auth error when absent). -/
def _async_login_dconnect_web (st : St) : Res Unit :=
  let req1 : Request := { method := "GET", url := DABPUMPS_API_URL }
  match _async_send_request "login DConnect_web home" req1 st with
  | (.error e, st1, tr1) => (.error e, st1, tr1)
  | (.ok result, st1, tr1) =>
    match result with
    | .text text =>
      match searchAction text.data with
      | none =>
        (.error (.authError ("Unexpected response while retrieving login url from " ++
          req1.url ++ ": " ++ text)), st1, tr1)
      | some cap =>
        let req2 : Request :=
          { method := "POST", url := String.mk (replaceAmp cap),
            data := [("username", st.username), ("password", st.password)] }
        match _async_send_request "login DConnect_web login" req2 st1 with
        | (.error e, st2, tr2) => (.error e, st2, tr1 ++ tr2)
        | (.ok _, st2, tr2) =>
          let token := (client_get_cookie DABPUMPS_API_DOMAIN DABPUMPS_API_TOKEN_COOKIE st2).getD ""
          if token = "" then
            (.error (.authError ("No access token found in response from " ++ req2.url)),
             st2, tr1 ++ tr2)
          else (.ok (), st2, tr1 ++ tr2)
    | _ => (.error (.typeErr "login page response is not text"), st1, tr1)

/-- Dispatch one login method to its flow, as the match statement inside
async_login does. -/
def runLoginMethod : API_LOGIN → St → Res Unit
  | .DABLIVE_APP_1 => _async_login_dablive_app 1
  | .DABLIVE_APP_0 => _async_login_dablive_app 0
  | .DCONNECT_APP => _async_login_dconnect_app
  | .DCONNECT_WEB => _async_login_dconnect_web

/-- The for loop of DabPumpsApi.async_login over the candidate method list.
A none entry (no previously known login method) is skipped.  A successful
flow records the method and ends the loop.  A failed flow captures the error,
clears the cookies and continues with the next candidate; when the candidates
are exhausted the last captured error is raised (and nothing happens when
there was none). -/
def loginLoop : List (Option API_LOGIN) → Option ApiErr → St → Res Unit
  | [], err, st =>
    match err with
    | some e => (.error e, st, [])
    | none => (.ok (), st, [])
  | none :: rest, err, st => loginLoop rest err st
  | some m :: rest, err, st =>
    match runLoginMethod m st with
    | (.ok _, st1, tr1) =>
      (.ok (), { st1 with login_method := some m }, Event.attempt m st.cookies :: tr1)
    | (.error e, st1, tr1) =>
      let (_, st2, tr2) := async_logout st1
      match loginLoop rest (some e) st2 with
      | (r3, st3, tr3) =>
        (r3, st3, (Event.attempt m st.cookies :: tr1) ++
          (Event.attemptFailed m e :: tr2) ++ tr3)

/-- The slow path of DabPumpsApi.async_login: log out of previous sessions,
then try the candidate methods: the method that succeeded last time first,
followed by the four methods in fixed priority order. -/
def loginSlow (st : St) : Res Unit :=
  let (_, st1, tr1) := async_logout st
  let methods : List (Option API_LOGIN) :=
    [st1.login_method, some .DABLIVE_APP_1, some .DABLIVE_APP_0,
     some .DCONNECT_APP, some .DCONNECT_WEB]
  match loginLoop methods none st1 with
  | (r, st2, tr2) => (r, st2, tr1 ++ tr2)

/-- DabPumpsApi.async_login.  jwtExp models jwt.decode(token)["exp"] with a
default of zero, the unverified decoding of the expiry claim from a token
string.  When the token cookie is present (and non-empty, Python truthiness)
and its expiry lies more than DABPUMPS_API_TOKEN_TIME_MIN seconds in the
future, only the diagnostics callback is invoked and the call returns;
otherwise the full login sequence runs. -/
def async_login (jwtExp : String → Int) (st : St) : Res Unit :=
  let token := (client_get_cookie DABPUMPS_API_DOMAIN DABPUMPS_API_TOKEN_COOKIE st).getD ""
  if token = "" then loginSlow st
  else if jwtExp token - st.now > DABPUMPS_API_TOKEN_TIME_MIN then
    let (_, st1, tr1) := _async_update_diagnostics "token reuse" st
    (.ok (), st1, tr1)
  else loginSlow st

/-- The truthy-or-default chain x or y used on JSON fields. -/
def jOr (x : Option Json) (dflt : Json) : Json :=
  match x with
  | some v => if v.truthy then v else dflt
  | none => dflt

/-- The length of a JSON array field, with Python len of the or-[] default;
non-list truthy values are out of the model (the source would raise there). -/
def jLen : Option Json → Nat
  | some (.arr items) => items.length
  | _ => 0

/-- The elements of a JSON array, empty for a missing or non-list value (the
source iterates the value and would raise on a non-iterable). -/
def jItems : Option Json → List Json
  | some (.arr items) => items
  | _ => []

/-- The shared retrieve-unless-given pattern of the fetch operations: use the
raw payload passed in by the caller when present, otherwise issue the given
request and require a JSON body (the source would fail on attribute access of
a non-dict payload otherwise). -/
def fetchRawOr (context : String) (req : Request) (typeMsg : String)
    (raw0 : Option Json) (st : St) : Res Json :=
  match raw0 with
  | some r => (.ok r, st, [])
  | none =>
    match _async_send_request context req st with
    | (.error e, st1, tr1) => (.error e, st1, tr1)
    | (.ok (.json j), st1, tr1) => (.ok j, st1, tr1)
    | (.ok _, st1, tr1) => (.error (.typeErr typeMsg), st1, tr1)

/-- The processing loop of async_fetch_install_list: build the installation
map keyed by installation_id from the values array of the payload. -/
def processInstallList (raw : Json) : List (Json × DabPumpsInstall) :=
  let installations := jItems (raw.get "values")
  ((installations.enum).foldl (fun acc iv =>
    let installation := iv.2
    let install_idx := iv.1
    let install_id := (installation.get "installation_id").getD (Json.str "")
    let install_name := jOr (installation.get "name")
      (jOr (installation.get "description") (Json.str ("installation " ++ toString install_idx)))
    let install : DabPumpsInstall :=
      { id := install_id,
        name := install_name,
        description := jOr (installation.get "description") (Json.str ""),
        company := jOr (installation.get "company") (Json.str ""),
        address := jOr (installation.get "address") (Json.str ""),
        role := jOr (installation.get "user_role") (Json.str "CUSTOMER"),
        devices := jLen (some (jOr (installation.get "dums") (Json.arr []))) }
    dictSet acc install_id install) [])

/-- DabPumpsApi.async_fetch_install_list: retrieve the installation list
(unless a raw payload is passed in), process it, raise the data error instead
of overwriting the remembered map when the processed map is empty, and
otherwise store the map with a fresh timestamp and return data/raw/both. -/
def async_fetch_install_list (raw0 : Option Json) (ret : DabPumpsRet) (st : St) :
    Res (FetchResult (List (Json × DabPumpsInstall))) :=
  match fetchRawOr "installation list"
      { method := "GET", url := DABPUMPS_API_URL ++ "/api/v1/installation" }
      "installation list response is not a JSON object" raw0 st with
  | (.error e, st1, tr1) => (.error e, st1, tr1)
  | (.ok raw, st1, tr1) =>
    let install_map := processInstallList raw
    if install_map.length = 0 then
      (.error (.dataError "No installations found in data"), st1, tr1)
    else
      let st2 := { st1 with install_map_ts := st1.now, install_map := install_map }
      match ret with
      | .DATA => (.ok (.data install_map), st2, tr1)
      | .RAW => (.ok (.raw raw), st2, tr1)
      | .BOTH => (.ok (.both install_map raw), st2, tr1)
      | .NONE => (.ok .empty, st2, tr1)

/-- The processing loop of async_fetch_install_details over the dums array:
build the device map and collect the config ids and serials seen, raising the
data error when a device has no serial or no configuration id. -/
def processDums (install_id : Json) (dums : List (Nat × Json))
    (device_map : List (Json × DabPumpsDevice)) (serial_list config_list : List Json) :
    Except ApiErr (List (Json × DabPumpsDevice) × List Json × List Json) :=
  match dums with
  | [] => .ok (device_map, serial_list, config_list)
  | iv :: rest =>
    let dum := iv.2
    let dum_idx := iv.1
    let dum_serial := jOr (dum.get "serial") (Json.str "")
    let dum_name := jOr (dum.get "name")
      (jOr (dum.get "ProductName") (Json.str ("device " ++ toString dum_idx)))
    let dum_product := jOr (dum.get "ProductName") (Json.str ("device " ++ toString dum_idx))
    let dum_version := jOr (dum.get "configuration_name") (Json.str "")
    let dum_config := jOr (dum.get "configuration_id") (Json.str "")
    if dum_serial.truthy = false then
      .error (.dataError "Could not find installation attribute serial")
    else if dum_config.truthy = false then
      .error (.dataError "Could not find installation attribute configuration_id")
    else
      let device : DabPumpsDevice :=
        { vendor := "DAB Pumps", name := dum_name, id := dum_name,
          serial := dum_serial, product := dum_product, version := dum_version,
          config_id := dum_config, install_id := install_id }
      let device_map2 := dictSet device_map dum_serial device
      let config_list2 := if config_list.any (fun c => Json.beq c dum_config)
        then config_list else config_list ++ [dum_config]
      let serial_list2 := if serial_list.any (fun s => Json.beq s dum_serial)
        then serial_list else serial_list ++ [dum_serial]
      processDums install_id rest device_map2 serial_list2 config_list2

/-- DabPumpsApi.async_fetch_install_details: retrieve the installation
details (unless a raw payload is passed in), check the installation id,
process the devices, and only when at least one device was found replace the
device map, narrow the config and status maps to the devices of this
installation, and record the user role. -/
def async_fetch_install_details (install_id : Json) (raw0 : Option Json)
    (ret : DabPumpsRet) (st : St) : Res (FetchResult (List (Json × DabPumpsDevice))) :=
  match fetchRawOr "installation details"
      { method := "GET", url := DABPUMPS_API_URL ++ "/api/v1/installation/" ++ install_id.display }
      "installation details response is not a JSON object" raw0 st with
  | (.error e, st1, tr1) => (.error e, st1, tr1)
  | (.ok raw, st1, tr1) =>
    let installation_id := (raw.get "installation_id").getD (Json.str "")
    if Json.beq installation_id install_id = false then
      (.error (.dataError "Expected installation id was not found in returned installation details"),
       st1, tr1)
    else
      match processDums install_id (jItems (raw.get "dums")).enum [] [] [] with
      | .error e => (.error e, st1, tr1)
      | .ok dums =>
        let device_map := dums.1
        let serial_list := dums.2.1
        let config_list := dums.2.2
        let user_role := (raw.get "user_role").getD (Json.str "CUSTOMER")
        let config_map := st1.config_map.filter
          (fun kv => config_list.any (fun c => Json.beq c kv.2.id))
        let status_map := st1.status_map.filter
          (fun kv => serial_list.any (fun s => Json.beq s (Json.str kv.2.serial)))
        if device_map.length = 0 then
          (.error (.dataError "No devices found for installation id"), st1, tr1)
        else
          let st2 := { st1 with
            device_map_ts := st1.now, device_map := device_map,
            config_map := config_map, status_map := status_map,
            user_role_ts := st1.now, user_role := user_role }
          match ret with
          | .DATA => (.ok (.data device_map), st2, tr1)
          | .RAW => (.ok (.raw raw), st2, tr1)
          | .BOTH => (.ok (.both device_map raw), st2, tr1)
          | .NONE => (.ok .empty, st2, tr1)

/-- The processing loop of async_fetch_device_statusses: one status record
per entry of the decoded status object, skipping unsupported values marked h,
keyed by create_id of serial and entry key. -/
def processStatusses (serial : String) (values : List (String × Json)) :
    List (String × DabPumpsStatus) :=
  values.foldl (fun acc kv =>
    if Json.beq kv.2 (Json.str "h") then acc
    else dictSet acc (create_id [serial, kv.1]) { serial := serial, key := kv.1, val := kv.2 }) []

/-- The decoded per-device status dictionary inside the payload.  The source
receives it JSON-encoded in the status field and decodes it with json.loads
(defaulting to an empty object); the model takes the decoded object
directly. -/
def statusValues (raw : Json) : List (String × Json) :=
  match raw.get "status" with
  | some (.obj fields) => fields
  | _ => []

/-- DabPumpsApi.async_fetch_device_statusses: retrieve the status snapshot of
one device (unless a raw payload is passed in), process it, raise the data
error when no status was found, and otherwise merge the statusses into the
remembered status map with a fresh timestamp. -/
def async_fetch_device_statusses (serial : String) (raw0 : Option Json)
    (ret : DabPumpsRet) (st : St) : Res (FetchResult (List (String × DabPumpsStatus))) :=
  match fetchRawOr ("statusses " ++ serial)
      { method := "GET", url := DABPUMPS_API_URL ++ "/dumstate/" ++ serial }
      "status response is not a JSON object" raw0 st with
  | (.error e, st1, tr1) => (.error e, st1, tr1)
  | (.ok raw, st1, tr1) =>
    let status_map := processStatusses serial (statusValues raw)
    if status_map.length = 0 then
      (.error (.dataError ("No statusses found for " ++ serial)), st1, tr1)
    else
      let st2 := { st1 with status_map_ts := st1.now, status_map := dictUpdate st1.status_map status_map }
      match ret with
      | .DATA => (.ok (.data status_map), st2, tr1)
      | .RAW => (.ok (.raw raw), st2, tr1)
      | .BOTH => (.ok (.both status_map raw), st2, tr1)
      | .NONE => (.ok .empty, st2, tr1)

/-- DabPumpsApi.async_change_device_status: look the status up under
create_id of serial and key; return False without any request when it is
absent or already holds the requested value; otherwise update the cached
value, POST the change, and return True when the request raised nothing. -/
def async_change_device_status (serial key : String) (value : Json) (st : St) : Res Bool :=
  let status_key := create_id [serial, key]
  match dictGet st.status_map status_key with
  | none => (.ok false, st, [])
  | some status =>
    if Json.beq status.val value then (.ok false, st, [])
    else
      let status2 : DabPumpsStatus := { status with val := value }
      let st1 := { st with status_map := dictSet st.status_map status_key status2 }
      let req : Request :=
        { method := "POST", url := DABPUMPS_API_URL ++ "/dum/" ++ status2.serial,
          data := [("key", status2.key), ("value", value.display)] }
      match _async_send_request ("set " ++ status2.serial ++ ":" ++ status2.key) req st1 with
      | (.error e, st2, tr2) => (.error e, st2, tr2)
      | (.ok _, st2, tr2) => (.ok true, st2, tr2)

end DabPumpsApi

/-- Is this event a diagnostics-callback invocation? -/
def Event.isDiag : Event → Bool
  | .diag _ => true
  | _ => false

/-- Is this event an HTTP request issued through the transport? -/
def Event.isRequest : Event → Bool
  | .request _ => true
  | _ => false

/-- Is this event a cookie write performed by the api code? -/
def Event.isSetCookieEv : Event → Bool
  | .setCookie _ _ _ => true
  | _ => false

/-- Events that a single flow or transport call can produce: requests,
received cookies, diagnostics invocations and cookie writes (neither
attempt markers nor cookie-store clears). -/
def Event.isPlain : Event → Bool
  | .request _ => true
  | .recvCookies _ => true
  | .diag _ => true
  | .setCookie _ _ _ => true
  | _ => false

/-- Does this event respect the empty-cookie-store-at-attempt property: every
attempt marker must carry an empty cookie store. -/
def Event.attemptEmpty : Event → Bool
  | .attempt _ cookies => cookies.isEmpty
  | _ => true

/-- The login methods attempted during a run, in order. -/
def attemptsOf (tr : List Event) : List API_LOGIN :=
  tr.filterMap (fun e => match e with
    | .attempt m _ => some m
    | _ => none)

/-- The failed login attempts of a run with their captured errors, in order. -/
def failedOf (tr : List Event) : List (API_LOGIN × ApiErr) :=
  tr.filterMap (fun e => match e with
    | .attemptFailed m err => some (m, err)
    | _ => none)

/-- How often the diagnostics callback was invoked during a run. -/
def countDiag (tr : List Event) : Nat :=
  (tr.filter Event.isDiag).length

/-- The token-reuse fast-path condition of async_login: the token cookie is
present and non-empty and its decoded expiry lies more than
DABPUMPS_API_TOKEN_TIME_MIN seconds in the future. -/
def tokenReusable (jwtExp : String → Int) (st : St) : Bool :=
  match client_get_cookie DABPUMPS_API_DOMAIN DABPUMPS_API_TOKEN_COOKIE st with
  | some t => !t.isEmpty && decide (jwtExp t - st.now > DABPUMPS_API_TOKEN_TIME_MIN)
  | none => false

/-- The candidate order async_login walks through: the remembered method
first when one is set, then the four methods in fixed priority order. -/
def loginCandidates (last : Option API_LOGIN) : List API_LOGIN :=
  (match last with
   | some m => [m]
   | none => []) ++
  [.DABLIVE_APP_1, .DABLIVE_APP_0, .DCONNECT_APP, .DCONNECT_WEB]

/-- The raised exception of a modelled call, none when it returned. -/
def errOf {α : Type} : Except ApiErr α → Option ApiErr
  | .error e => some e
  | .ok _ => none

/-- Did the modelled call raise? -/
def isErrB {α : Type} (x : Except ApiErr α) : Bool :=
  match x with
  | .error _ => true
  | .ok _ => false

/-- Is the raised exception the library's auth error? -/
def isAuthErrorRes {α : Type} : Except ApiErr α → Bool
  | .error (.authError _) => true
  | _ => false

/-- The invariant of the cached status map: every entry is stored under the
identifier derived from its own serial and key. -/
def statusInv (m : List (String × DabPumpsStatus)) : Prop :=
  ∀ kv ∈ m, kv.1 = DabPumpsApi.create_id [kv.2.serial, kv.2.key]

/-- A base state used by the concrete witness runs: fresh api instance with a
registered diagnostics callback, an empty cookie store and no scripted
responses. -/
def st0 : St :=
  { username := "u", password := "p", now := 0, cookies := [], script := [],
    login_method := none, install_map := [], install_map_ts := 0,
    device_map := [], device_map_ts := 0, config_map := [], config_map_ts := 0,
    status_map := [], status_map_ts := 0, user_role := Json.str "CUSTOMER",
    user_role_ts := 0, diag_registered := true }

/-- Pointwise plain traces contain no attempt markers. -/
theorem attemptsOf_nil_of_plain {tr : List Event} (h : ∀ e ∈ tr, e.isPlain = true) :
    attemptsOf tr = [] := by
  induction tr with
  | nil => rfl
  | cons e rest ih =>
    have he := h e (by simp)
    have hrest := ih (fun x hx => h x (by simp [hx]))
    cases e <;> simp_all [attemptsOf, Event.isPlain]

/-- Pointwise plain traces contain no failed-attempt markers. -/
theorem failedOf_nil_of_plain {tr : List Event} (h : ∀ e ∈ tr, e.isPlain = true) :
    failedOf tr = [] := by
  induction tr with
  | nil => rfl
  | cons e rest ih =>
    have he := h e (by simp)
    have hrest := ih (fun x hx => h x (by simp [hx]))
    cases e <;> simp_all [failedOf, Event.isPlain]

/-- Plain events trivially satisfy the empty-jar-at-attempt property. -/
theorem attemptEmpty_of_plain {e : Event} (h : e.isPlain = true) :
    e.attemptEmpty = true := by
  cases e <;> simp_all [Event.isPlain, Event.attemptEmpty]

/-- attemptsOf distributes over concatenation. -/
theorem attemptsOf_append (a b : List Event) :
    attemptsOf (a ++ b) = attemptsOf a ++ attemptsOf b := by
  simp [attemptsOf, List.filterMap_append]

/-- failedOf distributes over concatenation. -/
theorem failedOf_append (a b : List Event) :
    failedOf (a ++ b) = failedOf a ++ failedOf b := by
  simp [failedOf, List.filterMap_append]

/-- The transport adapter itself produces only plain events. -/
theorem client_events_plain (req : Request) (st : St) :
    ∀ e ∈ (client_send_request req st).2.2, e.isPlain = true := by
  intro e he
  unfold client_send_request at he
  rcases hs : st.script with _ | ⟨item | item, rest⟩ <;> rw [hs] at he <;> simp at he
  · simp [he, Event.isPlain]
  · rcases he with he | he <;> simp [he, Event.isPlain]
  · simp [he, Event.isPlain]

/-- The request-sending layer produces only plain events. -/
theorem send_events_plain (c : String) (req : Request) (st : St) :
    ∀ e ∈ (DabPumpsApi._async_send_request c req st).2.2, e.isPlain = true := by
  intro e he
  have hcl := client_events_plain req st
  unfold DabPumpsApi._async_send_request at he
  rcases h : client_send_request req st with ⟨r, st1, tr1⟩
  rw [h] at he hcl
  cases r with
  | error ex => exact hcl e he
  | ok resp =>
    simp [DabPumpsApi._async_update_diagnostics] at he
    rcases he with he | he
    · exact hcl e he
    · rcases hd : st1.diag_registered <;> rw [hd] at he <;> simp at he
      simp [he, Event.isPlain]

/-- Equation form of send_events_plain, for use after splitting on a send. -/
theorem send_events_plain_eq (c : String) (req : Request) (st : St)
    (r : Except ApiErr SendValue) (st1 : St) (tr1 : List Event)
    (h : DabPumpsApi._async_send_request c req st = (r, st1, tr1)) :
    ∀ e ∈ tr1, e.isPlain = true := by
  intro e he
  have hp := send_events_plain c req st
  rw [h] at hp
  exact hp e he

/-- The DabLive flow produces only plain events. -/
theorem dablive_events_plain (n : Int) (st : St) :
    ∀ e ∈ (DabPumpsApi._async_login_dablive_app n st).2.2, e.isPlain = true := by
  intro e he
  unfold DabPumpsApi._async_login_dablive_app at he
  dsimp only at he
  split at he
  · rename_i ex st1 tr1 heq
    exact send_events_plain_eq _ _ _ _ _ _ heq e he
  · rename_i result st1 tr1 heq
    split at he
    · rename_i j
      split at he
      · exact send_events_plain_eq _ _ _ _ _ _ heq e he
      · simp [client_set_cookie] at he
        rcases he with he | he
        · exact send_events_plain_eq _ _ _ _ _ _ heq e he
        · simp [he, Event.isPlain]
    · exact send_events_plain_eq _ _ _ _ _ _ heq e he

/-- The DConnect app flow produces only plain events. -/
theorem dconnect_app_events_plain (st : St) :
    ∀ e ∈ (DabPumpsApi._async_login_dconnect_app st).2.2, e.isPlain = true := by
  intro e he
  unfold DabPumpsApi._async_login_dconnect_app at he
  dsimp only at he
  split at he
  · rename_i ex st1 tr1 heq
    exact send_events_plain_eq _ _ _ _ _ _ heq e he
  · rename_i result st1 tr1 heq
    split at he
    · rename_i j
      split at he
      · exact send_events_plain_eq _ _ _ _ _ _ heq e he
      · split at he
        · rename_i ex2 st2 tr2 heq2
          simp at he
          rcases he with he | he
          · exact send_events_plain_eq _ _ _ _ _ _ heq e he
          · exact send_events_plain_eq _ _ _ _ _ _ heq2 e he
        · rename_i r2 st2 tr2 heq2
          simp [client_set_cookie] at he
          rcases he with he | he | he
          · exact send_events_plain_eq _ _ _ _ _ _ heq e he
          · exact send_events_plain_eq _ _ _ _ _ _ heq2 e he
          · simp [he, Event.isPlain]
    · exact send_events_plain_eq _ _ _ _ _ _ heq e he

/-- The DConnect web flow produces only plain events. -/
theorem dconnect_web_events_plain (st : St) :
    ∀ e ∈ (DabPumpsApi._async_login_dconnect_web st).2.2, e.isPlain = true := by
  intro e he
  unfold DabPumpsApi._async_login_dconnect_web at he
  dsimp only at he
  split at he
  · rename_i ex st1 tr1 heq
    exact send_events_plain_eq _ _ _ _ _ _ heq e he
  · rename_i result st1 tr1 heq
    split at he
    · rename_i text
      split at he
      · exact send_events_plain_eq _ _ _ _ _ _ heq e he
      · rename_i cap
        split at he
        · rename_i ex2 st2 tr2 heq2
          simp at he
          rcases he with he | he
          · exact send_events_plain_eq _ _ _ _ _ _ heq e he
          · exact send_events_plain_eq _ _ _ _ _ _ heq2 e he
        · rename_i r2 st2 tr2 heq2
          split at he <;> simp at he <;>
            rcases he with he | he
          · exact send_events_plain_eq _ _ _ _ _ _ heq e he
          · exact send_events_plain_eq _ _ _ _ _ _ heq2 e he
          · exact send_events_plain_eq _ _ _ _ _ _ heq e he
          · exact send_events_plain_eq _ _ _ _ _ _ heq2 e he
    · exact send_events_plain_eq _ _ _ _ _ _ heq e he

/-- Every login flow produces only plain events. -/
theorem flow_events_plain (m : API_LOGIN) (st : St) :
    ∀ e ∈ (DabPumpsApi.runLoginMethod m st).2.2, e.isPlain = true := by
  cases m with
  | DABLIVE_APP_1 => exact dablive_events_plain 1 st
  | DABLIVE_APP_0 => exact dablive_events_plain 0 st
  | DCONNECT_APP => exact dconnect_app_events_plain st
  | DCONNECT_WEB => exact dconnect_web_events_plain st

/-- attemptsOf over a cons of an attempt marker. -/
theorem attemptsOf_cons_attempt (m : API_LOGIN) (cs : List ((String × String) × String))
    (tr : List Event) : attemptsOf (.attempt m cs :: tr) = m :: attemptsOf tr := by
  simp [attemptsOf]

/-- attemptsOf ignores failed-attempt markers. -/
theorem attemptsOf_cons_failed (m : API_LOGIN) (ex : ApiErr) (tr : List Event) :
    attemptsOf (.attemptFailed m ex :: tr) = attemptsOf tr := by
  simp [attemptsOf]

/-- attemptsOf ignores cookie-store clears. -/
theorem attemptsOf_cons_clear (tr : List Event) :
    attemptsOf (.clear :: tr) = attemptsOf tr := by
  simp [attemptsOf]

/-- failedOf ignores attempt markers. -/
theorem failedOf_cons_attempt (m : API_LOGIN) (cs : List ((String × String) × String))
    (tr : List Event) : failedOf (.attempt m cs :: tr) = failedOf tr := by
  simp [failedOf]

/-- failedOf over a cons of a failed-attempt marker. -/
theorem failedOf_cons_failed (m : API_LOGIN) (ex : ApiErr) (tr : List Event) :
    failedOf (.attemptFailed m ex :: tr) = (m, ex) :: failedOf tr := by
  simp [failedOf]

/-- failedOf ignores cookie-store clears. -/
theorem failedOf_cons_clear (tr : List Event) :
    failedOf (.clear :: tr) = failedOf tr := by
  simp [failedOf]

/-- attemptsOf of the empty trace. -/
theorem attemptsOf_nil : attemptsOf [] = [] := rfl

/-- failedOf of the empty trace. -/
theorem failedOf_nil : failedOf [] = [] := rfl

/-- A flow trace contains no attempt markers. -/
theorem attemptsOf_flow_nil (m : API_LOGIN) (st : St) (r : Except ApiErr Unit)
    (st1 : St) (tr1 : List Event) (h : DabPumpsApi.runLoginMethod m st = (r, st1, tr1)) :
    attemptsOf tr1 = [] := by
  apply attemptsOf_nil_of_plain
  intro e he
  have hp := flow_events_plain m st
  rw [h] at hp
  exact hp e he

/-- A flow trace contains no failed-attempt markers. -/
theorem failedOf_flow_nil (m : API_LOGIN) (st : St) (r : Except ApiErr Unit)
    (st1 : St) (tr1 : List Event) (h : DabPumpsApi.runLoginMethod m st = (r, st1, tr1)) :
    failedOf tr1 = [] := by
  apply failedOf_nil_of_plain
  intro e he
  have hp := flow_events_plain m st
  rw [h] at hp
  exact hp e he

/-- The login loop attempts a prefix of its candidate list, and attempts the
whole candidate list when it ends up raising. -/
theorem loginLoop_attempts (ms : List (Option API_LOGIN)) (err : Option ApiErr) (st : St) :
    ∃ k, attemptsOf (DabPumpsApi.loginLoop ms err st).2.2 = (ms.filterMap id).take k ∧
      (isErrB (DabPumpsApi.loginLoop ms err st).1 = true →
        attemptsOf (DabPumpsApi.loginLoop ms err st).2.2 = ms.filterMap id) := by
  induction ms generalizing err st with
  | nil =>
    refine ⟨0, ?_, ?_⟩ <;> cases err <;> simp [DabPumpsApi.loginLoop, attemptsOf]
  | cons m? rest ih =>
    cases m? with
    | none => simpa [DabPumpsApi.loginLoop] using ih err st
    | some m =>
      rcases hf : DabPumpsApi.runLoginMethod m st with ⟨r, st1, tr1⟩
      have htr1 : attemptsOf tr1 = [] := attemptsOf_flow_nil m st r st1 tr1 hf
      cases r with
      | ok u =>
        refine ⟨1, ?_, ?_⟩
        · simp [DabPumpsApi.loginLoop, hf, attemptsOf_cons_attempt, htr1]
        · intro hb
          simp [DabPumpsApi.loginLoop, hf, isErrB] at hb
      | error e1 =>
        rcases hl : DabPumpsApi.loginLoop rest (some e1) { st1 with cookies := [] }
          with ⟨r3, st3, tr3⟩
        obtain ⟨k, h1, h2⟩ := ih (some e1) { st1 with cookies := [] }
        rw [hl] at h1 h2
        dsimp only at h1 h2
        refine ⟨k + 1, ?_, ?_⟩
        · simp only [DabPumpsApi.loginLoop, hf, DabPumpsApi.async_logout,
            client_clear_cookies, hl]
          simp only [attemptsOf_append, attemptsOf_cons_attempt, attemptsOf_cons_failed,
            attemptsOf_cons_clear, attemptsOf_nil, htr1, h1, List.filterMap_cons,
            List.take_succ_cons, id]
          try simp
        · intro hb
          simp only [DabPumpsApi.loginLoop, hf, DabPumpsApi.async_logout,
            client_clear_cookies, hl] at hb ⊢
          try dsimp only at hb
          simp only [attemptsOf_append, attemptsOf_cons_attempt, attemptsOf_cons_failed,
            attemptsOf_cons_clear, attemptsOf_nil, htr1, List.filterMap_cons, id,
            h2 hb]
          try simp

/-- When the login loop starts with an empty cookie store, every attempt
marker it emits records an empty cookie store: each flow attempt begins on a
cleared jar. -/
theorem loginLoop_attemptEmpty (ms : List (Option API_LOGIN)) (err : Option ApiErr)
    (st : St) (h0 : st.cookies = []) :
    ∀ e ∈ (DabPumpsApi.loginLoop ms err st).2.2, e.attemptEmpty = true := by
  induction ms generalizing err st with
  | nil =>
    intro e he
    cases err <;> simp [DabPumpsApi.loginLoop] at he
  | cons m? rest ih =>
    cases m? with
    | none =>
      intro e he
      simp only [DabPumpsApi.loginLoop] at he
      exact ih err st h0 e he
    | some m =>
      intro e he
      rcases hf : DabPumpsApi.runLoginMethod m st with ⟨r, st1, tr1⟩
      have hplain : ∀ x ∈ tr1, Event.isPlain x = true := by
        intro x hx
        have hp := flow_events_plain m st
        rw [hf] at hp
        exact hp x hx
      cases r with
      | ok u =>
        simp only [DabPumpsApi.loginLoop, hf] at he
        simp at he
        rcases he with he | he
        · simp [he, Event.attemptEmpty, h0]
        · exact attemptEmpty_of_plain (hplain e he)
      | error e1 =>
        rcases hl : DabPumpsApi.loginLoop rest (some e1) { st1 with cookies := [] }
          with ⟨r3, st3, tr3⟩
        have hrest := ih (some e1) { st1 with cookies := [] } rfl
        rw [hl] at hrest
        simp only [DabPumpsApi.loginLoop, hf, DabPumpsApi.async_logout,
          client_clear_cookies, hl] at he
        simp at he
        rcases he with he | he | he | he | he
        · simp [he, Event.attemptEmpty, h0]
        · exact attemptEmpty_of_plain (hplain e he)
        · simp [he, Event.attemptEmpty]
        · simp [he, Event.attemptEmpty]
        · exact hrest e he

/-- When the login loop raises, the raised error is the captured error of the
last failed attempt, and that failed attempt is the last attempted method
(unless no method was attempted at all, in which case the raised error is the
one carried into the loop). -/
theorem loginLoop_last_error (ms : List (Option API_LOGIN)) (err : Option ApiErr) (st : St)
    (e0 : ApiErr) (h : (DabPumpsApi.loginLoop ms err st).1 = .error e0) :
    (∃ m, (failedOf (DabPumpsApi.loginLoop ms err st).2.2).getLast? = some (m, e0) ∧
       (attemptsOf (DabPumpsApi.loginLoop ms err st).2.2).getLast? = some m) ∨
    (failedOf (DabPumpsApi.loginLoop ms err st).2.2 = [] ∧
     attemptsOf (DabPumpsApi.loginLoop ms err st).2.2 = [] ∧ err = some e0) := by
  induction ms generalizing err st with
  | nil =>
    cases err with
    | none => simp [DabPumpsApi.loginLoop, isErrB] at h
    | some e =>
      simp only [DabPumpsApi.loginLoop] at h ⊢
      simp at h
      right
      simp [failedOf_nil, attemptsOf_nil, h]
  | cons m? rest ih =>
    cases m? with
    | none =>
      simp only [DabPumpsApi.loginLoop] at h ⊢
      exact ih err st h
    | some m =>
      rcases hf : DabPumpsApi.runLoginMethod m st with ⟨r, st1, tr1⟩
      cases r with
      | ok u => simp [DabPumpsApi.loginLoop, hf] at h
      | error e1 =>
        rcases hl : DabPumpsApi.loginLoop rest (some e1) { st1 with cookies := [] }
          with ⟨r3, st3, tr3⟩
        have hfail1 : failedOf tr1 = [] := failedOf_flow_nil m st _ st1 tr1 hf
        have hatt1 : attemptsOf tr1 = [] := attemptsOf_flow_nil m st _ st1 tr1 hf
        simp only [DabPumpsApi.loginLoop, hf, DabPumpsApi.async_logout,
          client_clear_cookies, hl] at h ⊢
        try dsimp only at h
        have ihr := ih (some e1) { st1 with cookies := [] }
        rw [hl] at ihr
        try dsimp only at ihr
        rcases ihr h with ⟨m2, hfl, hal⟩ | ⟨hf3, ha3, he13⟩
        · left
          refine ⟨m2, ?_, ?_⟩
          · have hne : failedOf tr3 ≠ [] := by
              intro hc
              rw [hc] at hfl
              simp at hfl
            simp only [failedOf_append, failedOf_cons_attempt, failedOf_cons_failed,
              failedOf_cons_clear, failedOf_nil, hfail1, List.nil_append]
            rw [List.getLast?_append_of_ne_nil _ hne]
            exact hfl
          · have hne : attemptsOf tr3 ≠ [] := by
              intro hc
              rw [hc] at hal
              simp at hal
            simp only [attemptsOf_append, attemptsOf_cons_attempt, attemptsOf_cons_failed,
              attemptsOf_cons_clear, attemptsOf_nil, hatt1, List.append_nil, List.nil_append]
            rw [List.getLast?_append_of_ne_nil _ hne]
            exact hal
        · left
          obtain rfl : e1 = e0 := by injection he13
          refine ⟨m, ?_, ?_⟩
          · simp [failedOf_append, failedOf_cons_attempt, failedOf_cons_failed,
              failedOf_cons_clear, failedOf_nil, hfail1, hf3]
          · simp [attemptsOf_append, attemptsOf_cons_attempt, attemptsOf_cons_failed,
              attemptsOf_cons_clear, attemptsOf_nil, hatt1, ha3]

/-- On the fast path (valid token cookie) async_login only invokes the
diagnostics callback. -/
theorem async_login_fast (jwtExp : String → Int) (st : St)
    (h : tokenReusable jwtExp st = true) :
    DabPumpsApi.async_login jwtExp st =
      (.ok (), st, if st.diag_registered then [Event.diag "token reuse"] else []) := by
  unfold tokenReusable at h
  unfold DabPumpsApi.async_login
  rcases hc : client_get_cookie DABPUMPS_API_DOMAIN DABPUMPS_API_TOKEN_COOKIE st with _ | t
  · rw [hc] at h
    simp at h
  · rw [hc] at h
    simp at h
    obtain ⟨hne, hexp⟩ := h
    have hne2 : ¬(t = "") := by
      intro hc2
      rw [hc2] at hne
      exact absurd hne (by decide)
    simp [Option.getD, hne2, hexp, DabPumpsApi._async_update_diagnostics]

/-- Off the fast path async_login runs the full logout-and-retry sequence. -/
theorem async_login_slow (jwtExp : String → Int) (st : St)
    (h : tokenReusable jwtExp st = false) :
    DabPumpsApi.async_login jwtExp st = DabPumpsApi.loginSlow st := by
  unfold tokenReusable at h
  unfold DabPumpsApi.async_login
  rcases hc : client_get_cookie DABPUMPS_API_DOMAIN DABPUMPS_API_TOKEN_COOKIE st with _ | t
  · simp [Option.getD]
  · rw [hc] at h
    simp at h
    by_cases ht : t = ""
    · simp [Option.getD, ht]
    · have hie : t.isEmpty = false := by
        cases hi : t.isEmpty
        · rfl
        · exact absurd ((String.isEmpty_iff t).mp hi) ht
      have := h hie
      simp [Option.getD, ht, this]

/-- C2: when the token cookie is present with a decoded expiry more than 10
seconds in the future, login() returns immediately without issuing any
network request, without clearing cookies and without attempting any login
flow (the trace holds at most the diagnostics invocation), and the api state
is unchanged. -/
theorem login_token_reuse (jwtExp : String → Int) (st : St)
    (h : tokenReusable jwtExp st = true) :
    (DabPumpsApi.async_login jwtExp st).1 = .ok () ∧
    (DabPumpsApi.async_login jwtExp st).2.1 = st ∧
    ((DabPumpsApi.async_login jwtExp st).2.2.all Event.isDiag) = true := by
  rw [async_login_fast jwtExp st h]
  refine ⟨rfl, rfl, ?_⟩
  cases hd : st.diag_registered <;> simp [hd, Event.isDiag]

/-- Witness for login_token_reuse: a concrete state with a fresh token cookie
takes the fast path, leaves the state unchanged and produces only a
diagnostics event. -/
theorem login_token_reuse_witness :
    tokenReusable (fun _ => 100)
      { st0 with cookies := [((DABPUMPS_API_DOMAIN, DABPUMPS_API_TOKEN_COOKIE), "tok")] } = true ∧
    ((DabPumpsApi.async_login (fun _ => 100)
        { st0 with cookies := [((DABPUMPS_API_DOMAIN, DABPUMPS_API_TOKEN_COOKIE), "tok")] }).1 = .ok () ∧
      (DabPumpsApi.async_login (fun _ => 100)
        { st0 with cookies := [((DABPUMPS_API_DOMAIN, DABPUMPS_API_TOKEN_COOKIE), "tok")] }).2.1 =
        { st0 with cookies := [((DABPUMPS_API_DOMAIN, DABPUMPS_API_TOKEN_COOKIE), "tok")] } ∧
      ((DabPumpsApi.async_login (fun _ => 100)
        { st0 with cookies := [((DABPUMPS_API_DOMAIN, DABPUMPS_API_TOKEN_COOKIE), "tok")] }).2.2.all
          Event.isDiag) = true) :=
  ⟨rfl, login_token_reuse (fun _ => 100)
    { st0 with cookies := [((DABPUMPS_API_DOMAIN, DABPUMPS_API_TOKEN_COOKIE), "tok")] } rfl⟩

/-- C6: during every login() call that does not take the fast path, the
first observable action is the cookie-store clear, and every flow attempt
begins on an empty cookie store (the clear after each failed attempt
guarantees this also for the later candidates). -/
theorem login_clears_cookies_before_attempts (jwtExp : String → Int) (st : St)
    (h : tokenReusable jwtExp st = false) :
    (DabPumpsApi.async_login jwtExp st).2.2.head? = some Event.clear ∧
    ((DabPumpsApi.async_login jwtExp st).2.2.all Event.attemptEmpty) = true := by
  rw [async_login_slow jwtExp st h]
  unfold DabPumpsApi.loginSlow
  rcases hl : DabPumpsApi.loginLoop
      [st.login_method, some .DABLIVE_APP_1, some .DABLIVE_APP_0,
       some .DCONNECT_APP, some .DCONNECT_WEB] none { st with cookies := [] }
    with ⟨r, st2, tr2⟩
  have hall := loginLoop_attemptEmpty
      [st.login_method, some .DABLIVE_APP_1, some .DABLIVE_APP_0,
       some .DCONNECT_APP, some .DCONNECT_WEB] none { st with cookies := [] } rfl
  rw [hl] at hall
  simp only [DabPumpsApi.async_logout, client_clear_cookies, hl]
  refine ⟨rfl, ?_⟩
  simp only [List.all_eq_true]
  intro x hx
  simp at hx
  rcases hx with hx | hx
  · simp [hx, Event.attemptEmpty]
  · exact hall x hx

/-- Witness for login_clears_cookies_before_attempts: a fresh instance with
no token takes the slow path; its trace starts with a clear and every attempt
begins on an empty jar. -/
theorem login_clears_cookies_before_attempts_witness :
    tokenReusable (fun _ => 0) st0 = false ∧
    ((DabPumpsApi.async_login (fun _ => 0) st0).2.2.head? = some Event.clear ∧
     ((DabPumpsApi.async_login (fun _ => 0) st0).2.2.all Event.attemptEmpty) = true) :=
  ⟨rfl, login_clears_cookies_before_attempts (fun _ => 0) st0 rfl⟩

/-- C1 (amended as proved): the methods attempted by login() form a prefix of
the candidate order: the last-successful method first (when set), then the
four methods in fixed priority order; duplicates are not skipped.  When
login() raises, the whole candidate sequence was attempted. -/
theorem login_attempt_order (jwtExp : String → Int) (st : St) :
    (∃ k, attemptsOf (DabPumpsApi.async_login jwtExp st).2.2 =
        (loginCandidates st.login_method).take k) ∧
    (isErrB (DabPumpsApi.async_login jwtExp st).1 = true →
      attemptsOf (DabPumpsApi.async_login jwtExp st).2.2 = loginCandidates st.login_method) := by
  by_cases h : tokenReusable jwtExp st = true
  · rw [async_login_fast jwtExp st h]
    constructor
    · refine ⟨0, ?_⟩
      cases hd : st.diag_registered <;> simp [hd, attemptsOf]
    · intro hb
      simp [isErrB] at hb
  · have h2 : tokenReusable jwtExp st = false := by
      cases hx : tokenReusable jwtExp st
      · rfl
      · exact absurd hx h
    rw [async_login_slow jwtExp st h2]
    unfold DabPumpsApi.loginSlow
    rcases hl : DabPumpsApi.loginLoop
        [st.login_method, some .DABLIVE_APP_1, some .DABLIVE_APP_0,
         some .DCONNECT_APP, some .DCONNECT_WEB] none { st with cookies := [] }
      with ⟨r, st2, tr2⟩
    obtain ⟨k, ha, hb⟩ := loginLoop_attempts
        [st.login_method, some .DABLIVE_APP_1, some .DABLIVE_APP_0,
         some .DCONNECT_APP, some .DCONNECT_WEB] none { st with cookies := [] }
    rw [hl] at ha hb
    dsimp only at ha hb
    have hcand : List.filterMap id
        [st.login_method, some API_LOGIN.DABLIVE_APP_1, some API_LOGIN.DABLIVE_APP_0,
         some API_LOGIN.DCONNECT_APP, some API_LOGIN.DCONNECT_WEB] =
        loginCandidates st.login_method := by
      cases st.login_method <;> simp [loginCandidates, List.filterMap_cons]
    simp only [DabPumpsApi.async_logout, client_clear_cookies, hl]
    constructor
    · exact ⟨k, by simpa [attemptsOf_cons_clear, hcand] using ha⟩
    · intro hbb
      have hres := hb (by simpa using hbb)
      simp [attemptsOf_append, attemptsOf_cons_clear, attemptsOf_nil, hres, hcand]

/-- Witness for login_attempt_order: on a fresh instance where every flow
fails, all four fixed-priority methods are attempted in order. -/
theorem login_attempt_order_witness :
    (∃ k, attemptsOf (DabPumpsApi.async_login (fun _ => 0) st0).2.2 =
        (loginCandidates st0.login_method).take k) ∧
    attemptsOf (DabPumpsApi.async_login (fun _ => 0) st0).2.2 =
      loginCandidates st0.login_method :=
  ⟨(login_attempt_order (fun _ => 0) st0).1,
   (login_attempt_order (fun _ => 0) st0).2 (by rfl)⟩

/-- Counterexample to C1 as stated: with DABLIVE_APP_1 remembered as the
last-successful method and every flow failing, DABLIVE_APP_1 is attempted
twice: the duplicate entry in the candidate list is not skipped. -/
theorem login_attempt_order_counterexample :
    attemptsOf (DabPumpsApi.async_login (fun _ => 0)
        { st0 with login_method := some .DABLIVE_APP_1 }).2.2 =
      [.DABLIVE_APP_1, .DABLIVE_APP_1, .DABLIVE_APP_0, .DCONNECT_APP, .DCONNECT_WEB] ∧
    (attemptsOf (DabPumpsApi.async_login (fun _ => 0)
        { st0 with login_method := some .DABLIVE_APP_1 }).2.2).count .DABLIVE_APP_1 = 2 :=
  ⟨rfl, rfl⟩

/-- C3: when login() raises, the raised error is exactly the error object
captured from the last attempted method; earlier errors are suppressed. -/
theorem login_all_fail_last_error (jwtExp : String → Int) (st : St) (e0 : ApiErr)
    (h : (DabPumpsApi.async_login jwtExp st).1 = .error e0) :
    ∃ m, (failedOf (DabPumpsApi.async_login jwtExp st).2.2).getLast? = some (m, e0) ∧
      (attemptsOf (DabPumpsApi.async_login jwtExp st).2.2).getLast? = some m := by
  by_cases hr : tokenReusable jwtExp st = true
  · rw [async_login_fast jwtExp st hr] at h
    simp at h
  · have h2 : tokenReusable jwtExp st = false := by
      cases hx : tokenReusable jwtExp st
      · rfl
      · exact absurd hx hr
    rw [async_login_slow jwtExp st h2] at h ⊢
    unfold DabPumpsApi.loginSlow at h ⊢
    rcases hl : DabPumpsApi.loginLoop
        [st.login_method, some .DABLIVE_APP_1, some .DABLIVE_APP_0,
         some .DCONNECT_APP, some .DCONNECT_WEB] none { st with cookies := [] }
      with ⟨r, st2, tr2⟩
    simp only [DabPumpsApi.async_logout, client_clear_cookies] at h ⊢
    try dsimp only at h ⊢
    rw [hl] at h ⊢
    try dsimp only at h ⊢
    have hll := loginLoop_last_error
        [st.login_method, some .DABLIVE_APP_1, some .DABLIVE_APP_0,
         some .DCONNECT_APP, some .DCONNECT_WEB] none { st with cookies := [] } e0
    rw [hl] at hll
    rcases hll h with ⟨m, hfl, hal⟩ | ⟨_, _, hcontra⟩
    · refine ⟨m, ?_, ?_⟩
      · simpa [failedOf_append, failedOf_cons_clear, failedOf_nil] using hfl
      · simpa [attemptsOf_append, attemptsOf_cons_clear, attemptsOf_nil] using hal
    · cases hcontra

/-- Witness for login_all_fail_last_error: on a fresh instance with an
unreachable server, login() raises the generic api error of the final
DConnect web attempt, and that error is the last captured failure. -/
theorem login_all_fail_last_error_witness :
    (DabPumpsApi.async_login (fun _ => 0) st0).1 = .error (.apiError
      "Unable to perform request, got response 599 no response while trying to reach https://dconnect.dabpumps.com") ∧
    ∃ m, (failedOf (DabPumpsApi.async_login (fun _ => 0) st0).2.2).getLast? =
        some (m, .apiError
          "Unable to perform request, got response 599 no response while trying to reach https://dconnect.dabpumps.com") ∧
      (attemptsOf (DabPumpsApi.async_login (fun _ => 0) st0).2.2).getLast? = some m :=
  ⟨rfl, login_all_fail_last_error (fun _ => 0) st0 _ rfl⟩

/-- The transport call changes only the cookie jar and the pending script. -/
theorem client_state_eq (req : Request) (st : St) :
    ∃ ck sc, (client_send_request req st).2.1 = { st with cookies := ck, script := sc } := by
  unfold client_send_request
  rcases hs : st.script with _ | ⟨item | item, rest⟩
  · refine ⟨st.cookies, [], ?_⟩
    dsimp only
    rw [← hs]
  · exact ⟨applyCookies st.cookies item.setCookies, rest, rfl⟩
  · exact ⟨st.cookies, rest, rfl⟩

/-- The request-sending layer changes only the cookie jar and the pending
script. -/
theorem send_state_eq (c : String) (req : Request) (st : St) :
    ∃ ck sc, (DabPumpsApi._async_send_request c req st).2.1 =
      { st with cookies := ck, script := sc } := by
  obtain ⟨ck, sc, hcl⟩ := client_state_eq req st
  unfold DabPumpsApi._async_send_request
  rcases h : client_send_request req st with ⟨r, st1, tr1⟩
  rw [h] at hcl
  cases r with
  | error ex => exact ⟨ck, sc, hcl⟩
  | ok resp =>
    exact ⟨ck, sc, by simpa [DabPumpsApi._async_update_diagnostics] using hcl⟩

/-- The retrieve-unless-given step changes only the cookie jar and the
pending script. -/
theorem fetchRawOr_state_eq (c : String) (req : Request) (tm : String)
    (raw0 : Option Json) (st : St) :
    ∃ ck sc, (DabPumpsApi.fetchRawOr c req tm raw0 st).2.1 =
      { st with cookies := ck, script := sc } := by
  obtain ⟨ck, sc, hse⟩ := send_state_eq c req st
  unfold DabPumpsApi.fetchRawOr
  cases raw0 with
  | some r => exact ⟨st.cookies, st.script, rfl⟩
  | none =>
    rcases h : DabPumpsApi._async_send_request c req st with ⟨r, st1, tr1⟩
    rw [h] at hse
    rcases r with e | v
    · exact ⟨ck, sc, hse⟩
    · rcases v with s | j | _ <;> exact ⟨ck, sc, hse⟩

/-- The request events of one send: exactly the one issued request. -/
theorem send_request_events (c : String) (req : Request) (st : St) :
    (DabPumpsApi._async_send_request c req st).2.2.filter Event.isRequest =
      [Event.request req] := by
  unfold DabPumpsApi._async_send_request client_send_request
  rcases hs : st.script with _ | ⟨item | item, rest⟩ <;>
    cases hd : st.diag_registered <;>
      simp [DabPumpsApi._async_update_diagnostics, hd, Event.isRequest,
        List.filter_append]

/-- C8 (amended as proved): whenever the transport call returns a response,
the diagnostics callback is invoked exactly once for that attempt when
registered (and never otherwise), regardless of the response status and of
whether classification then raises. -/
theorem diagnostics_called_once_per_response (c : String) (req : Request) (st : St)
    (r : ClientResponse) (rest : List ScriptItem)
    (hs : st.script = .resp r :: rest) :
    countDiag (DabPumpsApi._async_send_request c req st).2.2 =
      (if st.diag_registered then 1 else 0) := by
  unfold DabPumpsApi._async_send_request client_send_request
  rw [hs]
  cases hd : st.diag_registered <;>
    simp [DabPumpsApi._async_update_diagnostics, hd, countDiag, Event.isDiag,
      List.filter_append]

/-- Witness for diagnostics_called_once_per_response: one scripted failing
response on an instance with a registered callback yields exactly one
diagnostics invocation. -/
theorem diagnostics_called_once_per_response_witness :
    countDiag (DabPumpsApi._async_send_request "ctx" { method := "GET", url := "u" }
      { st0 with script := [.resp { success := false, status := "500", body := .empty }] }).2.2 = 1 :=
  by
  have h := diagnostics_called_once_per_response "ctx" { method := "GET", url := "u" }
    { st0 with script := [.resp { success := false, status := "500", body := .empty }] }
    { success := false, status := "500", body := .empty } [] rfl
  simpa using h

/-- Counterexample to C8 as stated: when the transport call itself raises,
the registered diagnostics callback is not invoked for that attempt, even
though the request was issued and the call raises the transport error. -/
theorem diagnostics_transport_raise_counterexample :
    countDiag (DabPumpsApi._async_send_request "ctx" { method := "GET", url := "u" }
      { st0 with script := [.raise (.transportError "connection refused")] }).2.2 = 0 ∧
    (DabPumpsApi._async_send_request "ctx" { method := "GET", url := "u" }
      { st0 with script := [.raise (.transportError "connection refused")] }).2.2 =
      [Event.request { method := "GET", url := "u" }] ∧
    (DabPumpsApi._async_send_request "ctx" { method := "GET", url := "u" }
      { st0 with script := [.raise (.transportError "connection refused")] }).1 =
      .error (.transportError "connection refused") :=
  ⟨rfl, rfl, rfl⟩

/-- C4 (amended as proved): for a transport-successful JSON response whose
res field is present, truthy (in particular a non-empty string) and not OK:
code FORBIDDEN raises the rights error; any other code raises the generic
api error whose message names the res, code and msg values and the target
url.  A JSON body without a res field is not classified as an error. -/
theorem send_request_res_classification :
    (∀ (c : String) (req : Request) (st : St) (status : String)
       (sc : List ((String × String) × String)) (j : Json) (rest : List ScriptItem)
       (resv : Json),
       st.script = .resp { success := true, status := status, body := .json j, setCookies := sc } :: rest →
       j.get "res" = some resv → resv.truthy = true → Json.beq resv (Json.str "OK") = false →
       Json.beq ((j.get "code").getD (Json.str "")) (Json.str "FORBIDDEN") = true →
       ∃ m, (DabPumpsApi._async_send_request c req st).1 = .error (.rightsError m)) ∧
    (∀ (c : String) (req : Request) (st : St) (status : String)
       (sc : List ((String × String) × String)) (j : Json) (rest : List ScriptItem)
       (resv : Json),
       st.script = .resp { success := true, status := status, body := .json j, setCookies := sc } :: rest →
       j.get "res" = some resv → resv.truthy = true → Json.beq resv (Json.str "OK") = false →
       Json.beq ((j.get "code").getD (Json.str "")) (Json.str "FORBIDDEN") = false →
       (DabPumpsApi._async_send_request c req st).1 = .error (.apiError
         ("Unable to perform request, got response " ++ resv.display ++ " " ++
          ((j.get "code").getD (Json.str "")).display ++ " " ++
          ((j.get "msg").getD (Json.str "")).display ++
          " while trying to reach " ++ req.url))) ∧
    (∀ (c : String) (req : Request) (st : St) (status : String)
       (sc : List ((String × String) × String)) (j : Json) (rest : List ScriptItem),
       st.script = .resp { success := true, status := status, body := .json j, setCookies := sc } :: rest →
       j.get "res" = none →
       (DabPumpsApi._async_send_request c req st).1 = .ok (.json j)) := by
  refine ⟨?_, ?_, ?_⟩
  · intro c req st status sc j rest resv hs hres htru hok hforb
    unfold DabPumpsApi._async_send_request client_send_request
    rw [hs]
    simp [DabPumpsApi.classifyResponse, hres, htru, hok, hforb]
  · intro c req st status sc j rest resv hs hres htru hok hforb
    unfold DabPumpsApi._async_send_request client_send_request
    rw [hs]
    simp [DabPumpsApi.classifyResponse, hres, htru, hok, hforb]
  · intro c req st status sc j rest hs hres
    unfold DabPumpsApi._async_send_request client_send_request
    rw [hs]
    simp [DabPumpsApi.classifyResponse, hres]

/-- Witness for send_request_res_classification: three concrete responses,
one per part: a FORBIDDEN non-OK res raising the rights error, another code
raising the generic api error with the full message, and a body without res
passing through. -/
theorem send_request_res_classification_witness :
    (∃ m, (DabPumpsApi._async_send_request "c" { method := "GET", url := "u" }
      { st0 with script := [.resp { success := true, status := "200", body := .json (.obj
         [("res", .str "ERROR"), ("code", .str "FORBIDDEN"), ("msg", .str "no")]) }] }).1 =
      .error (.rightsError m)) ∧
    ((DabPumpsApi._async_send_request "c" { method := "GET", url := "u" }
      { st0 with script := [.resp { success := true, status := "200", body := .json (.obj
         [("res", .str "ERROR"), ("code", .str "XX"), ("msg", .str "no")]) }] }).1 =
      .error (.apiError "Unable to perform request, got response ERROR XX no while trying to reach u")) ∧
    ((DabPumpsApi._async_send_request "c" { method := "GET", url := "u" }
      { st0 with script := [.resp { success := true, status := "200", body := .json (.obj
         [("value", .num 3)]) }] }).1 = .ok (.json (.obj [("value", .num 3)]))) := by
  refine ⟨?_, ?_, ?_⟩
  · exact send_request_res_classification.1 "c" { method := "GET", url := "u" } _
      "200" [] (.obj [("res", .str "ERROR"), ("code", .str "FORBIDDEN"), ("msg", .str "no")])
      [] (.str "ERROR") rfl rfl rfl rfl rfl
  · have h := send_request_res_classification.2.1 "c" { method := "GET", url := "u" }
      { st0 with script := [.resp { success := true, status := "200", body := .json (.obj
         [("res", .str "ERROR"), ("code", .str "XX"), ("msg", .str "no")]) }] }
      "200" [] (.obj [("res", .str "ERROR"), ("code", .str "XX"), ("msg", .str "no")])
      [] (.str "ERROR") rfl rfl rfl rfl rfl
    simpa using h
  · exact send_request_res_classification.2.2 "c" { method := "GET", url := "u" } _
      "200" [] (.obj [("value", .num 3)]) [] rfl rfl

/-- Counterexample to C4 as stated: a JSON body whose res field is present
and not equal to OK but empty (hence falsy) is not classified as an error,
even with code FORBIDDEN: the body is returned as the result. -/
theorem send_request_res_empty_counterexample :
    Json.beq (.str "") (.str "OK") = false ∧
    (DabPumpsApi._async_send_request "c" { method := "GET", url := "u" }
      { st0 with script := [.resp { success := true, status := "200", body := .json (.obj
         [("res", .str ""), ("code", .str "FORBIDDEN")]) }] }).1 =
      .ok (.json (.obj [("res", .str ""), ("code", .str "FORBIDDEN")])) :=
  ⟨rfl, rfl⟩

/-- The DabLive flows raise the auth error and set no cookie when the
transport-successful JSON response passes the error classifier (no truthy
res field different from OK) but has no access token. -/
theorem dablive_missing_token (isDabLive : Int) (st : St) (status : String)
    (sc : List ((String × String) × String)) (j : Json) (rest : List ScriptItem)
    (hs : st.script = .resp { success := true, status := status, body := .json j, setCookies := sc } :: rest)
    (hres : ∀ r, j.get "res" = some r → (r.truthy && !(Json.beq r (Json.str "OK"))) = false)
    (htok : jstrOrEmpty (j.get "access_token") = "") :
    isAuthErrorRes (DabPumpsApi._async_login_dablive_app isDabLive st).1 = true ∧
    ((DabPumpsApi._async_login_dablive_app isDabLive st).2.2.all
      (fun e => !e.isSetCookieEv)) = true := by
  unfold DabPumpsApi._async_login_dablive_app DabPumpsApi._async_send_request
    client_send_request
  rw [hs]
  rcases hr : j.get "res" with _ | r
  · cases hd : st.diag_registered <;>
      simp [DabPumpsApi.classifyResponse, DabPumpsApi._async_update_diagnostics, hd,
        hr, htok, isAuthErrorRes, Event.isSetCookieEv]
  · have hg := hres r hr
    cases hd : st.diag_registered <;>
      simp [DabPumpsApi.classifyResponse, DabPumpsApi._async_update_diagnostics, hd,
        hr, hg, htok, isAuthErrorRes, Event.isSetCookieEv]

/-- The DConnect app flow raises the auth error and sets no cookie when the
transport-successful JSON response of its first step passes the error
classifier (no truthy res field different from OK) but has no access
token. -/
theorem dconnect_app_missing_token (st : St) (status : String)
    (sc : List ((String × String) × String)) (j : Json) (rest : List ScriptItem)
    (hs : st.script = .resp { success := true, status := status, body := .json j, setCookies := sc } :: rest)
    (hres : ∀ r, j.get "res" = some r → (r.truthy && !(Json.beq r (Json.str "OK"))) = false)
    (htok : jstrOrEmpty (j.get "access_token") = "") :
    isAuthErrorRes (DabPumpsApi._async_login_dconnect_app st).1 = true ∧
    ((DabPumpsApi._async_login_dconnect_app st).2.2.all
      (fun e => !e.isSetCookieEv)) = true := by
  unfold DabPumpsApi._async_login_dconnect_app DabPumpsApi._async_send_request
    client_send_request
  rw [hs]
  rcases hr : j.get "res" with _ | r
  · cases hd : st.diag_registered <;>
      simp [DabPumpsApi.classifyResponse, DabPumpsApi._async_update_diagnostics, hd,
        hr, htok, isAuthErrorRes, Event.isSetCookieEv]
  · have hg := hres r hr
    cases hd : st.diag_registered <;>
      simp [DabPumpsApi.classifyResponse, DabPumpsApi._async_update_diagnostics, hd,
        hr, hg, htok, isAuthErrorRes, Event.isSetCookieEv]

/-- The DConnect web flow raises the auth error and sets no cookie when the
login page contains no form action to extract. -/
theorem dconnect_web_no_action (st : St) (status : String)
    (sc : List ((String × String) × String)) (s : String) (rest : List ScriptItem)
    (hs : st.script = .resp { success := true, status := status, body := .text s, setCookies := sc } :: rest)
    (hact : DabPumpsApi.searchAction s.data = none) :
    isAuthErrorRes (DabPumpsApi._async_login_dconnect_web st).1 = true ∧
    ((DabPumpsApi._async_login_dconnect_web st).2.2.all
      (fun e => !e.isSetCookieEv)) = true := by
  unfold DabPumpsApi._async_login_dconnect_web DabPumpsApi._async_send_request
    client_send_request
  rw [hs]
  cases hd : st.diag_registered <;>
    simp [DabPumpsApi.classifyResponse, DabPumpsApi._async_update_diagnostics, hd,
      hact, isAuthErrorRes, Event.isSetCookieEv]

/-- The DConnect web flow raises the auth error, sets no cookie itself and
leaves the token cookie absent when both steps succeed but the expected
cookie was never set by the server. -/
theorem dconnect_web_no_cookie (st : St) (status1 status2 : String)
    (sc1 sc2 : List ((String × String) × String)) (s s2 : String)
    (cap : List Char) (rest : List ScriptItem)
    (hs : st.script =
      .resp { success := true, status := status1, body := .text s, setCookies := sc1 } ::
      .resp { success := true, status := status2, body := .text s2, setCookies := sc2 } :: rest)
    (hact : DabPumpsApi.searchAction s.data = some cap)
    (hcook : (dictGet (applyCookies (applyCookies st.cookies sc1) sc2)
      (DABPUMPS_API_DOMAIN, DABPUMPS_API_TOKEN_COOKIE)).getD "" = "") :
    isAuthErrorRes (DabPumpsApi._async_login_dconnect_web st).1 = true ∧
    ((DabPumpsApi._async_login_dconnect_web st).2.2.all
      (fun e => !e.isSetCookieEv)) = true ∧
    (dictGet (DabPumpsApi._async_login_dconnect_web st).2.1.cookies
      (DABPUMPS_API_DOMAIN, DABPUMPS_API_TOKEN_COOKIE)).getD "" = "" := by
  unfold DabPumpsApi._async_login_dconnect_web DabPumpsApi._async_send_request
    client_send_request client_get_cookie
  rw [hs]
  cases hd : st.diag_registered <;>
    simp [DabPumpsApi.classifyResponse, DabPumpsApi._async_update_diagnostics, hd,
      hact, hcook, isAuthErrorRes, Event.isSetCookieEv]

/-- C5 (amended as proved): for each of the four login flows, when the flow's
HTTP steps are transport-successful and pass response classification (for a
JSON body: no truthy res field different from OK), a missing token-bearing
element (no access_token field for the DabLive and DConnect app flows, no
form-action match or no token cookie for the DConnect web flow) makes the
flow raise the auth error and set no token cookie.  A transport failure or a
classified error response raises the generic api or rights error before the
token element is inspected. -/
theorem login_flows_missing_token_auth_error :
    (∀ (isDabLive : Int) (st : St) (status : String)
       (sc : List ((String × String) × String)) (j : Json) (rest : List ScriptItem),
       st.script = .resp { success := true, status := status, body := .json j, setCookies := sc } :: rest →
       (∀ r, j.get "res" = some r → (r.truthy && !(Json.beq r (Json.str "OK"))) = false) →
       jstrOrEmpty (j.get "access_token") = "" →
       isAuthErrorRes (DabPumpsApi._async_login_dablive_app isDabLive st).1 = true ∧
       ((DabPumpsApi._async_login_dablive_app isDabLive st).2.2.all
         (fun e => !e.isSetCookieEv)) = true) ∧
    (∀ (st : St) (status : String)
       (sc : List ((String × String) × String)) (j : Json) (rest : List ScriptItem),
       st.script = .resp { success := true, status := status, body := .json j, setCookies := sc } :: rest →
       (∀ r, j.get "res" = some r → (r.truthy && !(Json.beq r (Json.str "OK"))) = false) →
       jstrOrEmpty (j.get "access_token") = "" →
       isAuthErrorRes (DabPumpsApi._async_login_dconnect_app st).1 = true ∧
       ((DabPumpsApi._async_login_dconnect_app st).2.2.all
         (fun e => !e.isSetCookieEv)) = true) ∧
    (∀ (st : St) (status : String)
       (sc : List ((String × String) × String)) (s : String) (rest : List ScriptItem),
       st.script = .resp { success := true, status := status, body := .text s, setCookies := sc } :: rest →
       DabPumpsApi.searchAction s.data = none →
       isAuthErrorRes (DabPumpsApi._async_login_dconnect_web st).1 = true ∧
       ((DabPumpsApi._async_login_dconnect_web st).2.2.all
         (fun e => !e.isSetCookieEv)) = true) ∧
    (∀ (st : St) (status1 status2 : String)
       (sc1 sc2 : List ((String × String) × String)) (s s2 : String)
       (cap : List Char) (rest : List ScriptItem),
       st.script =
         .resp { success := true, status := status1, body := .text s, setCookies := sc1 } ::
         .resp { success := true, status := status2, body := .text s2, setCookies := sc2 } :: rest →
       DabPumpsApi.searchAction s.data = some cap →
       (dictGet (applyCookies (applyCookies st.cookies sc1) sc2)
         (DABPUMPS_API_DOMAIN, DABPUMPS_API_TOKEN_COOKIE)).getD "" = "" →
       isAuthErrorRes (DabPumpsApi._async_login_dconnect_web st).1 = true ∧
       ((DabPumpsApi._async_login_dconnect_web st).2.2.all
         (fun e => !e.isSetCookieEv)) = true ∧
       (dictGet (DabPumpsApi._async_login_dconnect_web st).2.1.cookies
         (DABPUMPS_API_DOMAIN, DABPUMPS_API_TOKEN_COOKIE)).getD "" = "") := by
  refine ⟨?_, ?_, ?_, ?_⟩
  · intro isDabLive st status sc j rest hs hres htok
    exact dablive_missing_token isDabLive st status sc j rest hs hres htok
  · intro st status sc j rest hs hres htok
    exact dconnect_app_missing_token st status sc j rest hs hres htok
  · intro st status sc s rest hs hact
    exact dconnect_web_no_action st status sc s rest hs hact
  · intro st status1 status2 sc1 sc2 s s2 cap rest hs hact hcook
    exact dconnect_web_no_cookie st status1 status2 sc1 sc2 s s2 cap rest hs hact hcook

/-- Witness for login_flows_missing_token_auth_error: concrete responses with
the token element missing make each of the four flows raise the auth error
without setting a cookie. -/
theorem login_flows_missing_token_auth_error_witness :
    (isAuthErrorRes (DabPumpsApi._async_login_dablive_app 1
      { st0 with script := [.resp { success := true, status := "200", body := .json (.obj []) }] }).1 = true ∧
     ((DabPumpsApi._async_login_dablive_app 1
      { st0 with script := [.resp { success := true, status := "200", body := .json (.obj []) }] }).2.2.all
        (fun e => !e.isSetCookieEv)) = true) ∧
    (isAuthErrorRes (DabPumpsApi._async_login_dconnect_app
      { st0 with script := [.resp { success := true, status := "200", body := .json (.obj []) }] }).1 = true ∧
     ((DabPumpsApi._async_login_dconnect_app
      { st0 with script := [.resp { success := true, status := "200", body := .json (.obj []) }] }).2.2.all
        (fun e => !e.isSetCookieEv)) = true) ∧
    (isAuthErrorRes (DabPumpsApi._async_login_dconnect_web
      { st0 with script := [.resp { success := true, status := "200", body := .text "<html></html>" }] }).1 = true ∧
     ((DabPumpsApi._async_login_dconnect_web
      { st0 with script := [.resp { success := true, status := "200", body := .text "<html></html>" }] }).2.2.all
        (fun e => !e.isSetCookieEv)) = true) ∧
    (isAuthErrorRes (DabPumpsApi._async_login_dconnect_web
      { st0 with script :=
        [.resp { success := true, status := "200", body := .text "<form action=\"https://sso/login\">" },
         .resp { success := true, status := "302", body := .text "redirect" }] }).1 = true ∧
     ((DabPumpsApi._async_login_dconnect_web
      { st0 with script :=
        [.resp { success := true, status := "200", body := .text "<form action=\"https://sso/login\">" },
         .resp { success := true, status := "302", body := .text "redirect" }] }).2.2.all
        (fun e => !e.isSetCookieEv)) = true ∧
     (dictGet (DabPumpsApi._async_login_dconnect_web
      { st0 with script :=
        [.resp { success := true, status := "200", body := .text "<form action=\"https://sso/login\">" },
         .resp { success := true, status := "302", body := .text "redirect" }] }).2.1.cookies
        (DABPUMPS_API_DOMAIN, DABPUMPS_API_TOKEN_COOKIE)).getD "" = "") := by
  refine ⟨?_, ?_, ?_, ?_⟩
  · exact login_flows_missing_token_auth_error.1 1 _ "200" [] (.obj []) [] rfl
      (by intro r h; simp [Json.get] at h) rfl
  · exact login_flows_missing_token_auth_error.2.1 _ "200" [] (.obj []) [] rfl
      (by intro r h; simp [Json.get] at h) rfl
  · exact login_flows_missing_token_auth_error.2.2.1 _ "200" [] "<html></html>" [] rfl rfl
  · exact login_flows_missing_token_auth_error.2.2.2 _ "200" "302" [] []
      "<form action=\"https://sso/login\">" "redirect"
      ("https://sso/login".data) [] rfl rfl rfl

/-- Counterexample to C5 as stated: a token-endpoint response whose JSON
body lacks the access token does not always yield the auth error.  A non-2xx
response raises the generic api error, and even a transport-successful 200
response raises the rights error when its body carries a truthy non-OK res
field with code FORBIDDEN: in both cases the error classifier fires before
the token check. -/
theorem login_flow_auth_status_counterexample :
    ((DabPumpsApi._async_login_dablive_app 1
      { st0 with script := [.resp { success := false, status := "401 Unauthorized", body := .json (.obj []) }] }).1 =
      .error (.apiError
        "Unable to perform request, got response 401 Unauthorized while trying to reach https://dconnect.dabpumps.com/auth/token") ∧
     isAuthErrorRes (DabPumpsApi._async_login_dablive_app 1
      { st0 with script := [.resp { success := false, status := "401 Unauthorized", body := .json (.obj []) }] }).1 = false) ∧
    ((DabPumpsApi._async_login_dablive_app 1
      { st0 with script := [.resp { success := true, status := "200", body := .json (.obj
        [("res", .str "ERROR"), ("code", .str "FORBIDDEN"), ("msg", .str "Forbidden operation")]) }] }).1 =
      .error (.rightsError "Authorization failed: ERROR FORBIDDEN Forbidden operation") ∧
     isAuthErrorRes (DabPumpsApi._async_login_dablive_app 1
      { st0 with script := [.resp { success := true, status := "200", body := .json (.obj
        [("res", .str "ERROR"), ("code", .str "FORBIDDEN"), ("msg", .str "Forbidden operation")]) }] }).1 = false) :=
  ⟨⟨rfl, rfl⟩, ⟨rfl, rfl⟩⟩

/-- C7: whenever the processed installation list is empty, the fetch raises
the data error and the remembered installation map and its timestamp are
unchanged — both when a raw payload is handed in and when it is fetched from
the network. -/
theorem fetch_install_list_empty_data_error :
    (∀ (st : St) (r : Json) (ret : DabPumpsRet),
       DabPumpsApi.processInstallList r = [] →
       DabPumpsApi.async_fetch_install_list (some r) ret st =
         (.error (.dataError "No installations found in data"), st, [])) ∧
    (∀ (st : St) (status : String) (sc : List ((String × String) × String))
       (j : Json) (rest : List ScriptItem) (ret : DabPumpsRet),
       st.script = .resp { success := true, status := status, body := .json j, setCookies := sc } :: rest →
       j.get "res" = none →
       DabPumpsApi.processInstallList j = [] →
       (DabPumpsApi.async_fetch_install_list none ret st).1 =
         .error (.dataError "No installations found in data") ∧
       (DabPumpsApi.async_fetch_install_list none ret st).2.1.install_map = st.install_map ∧
       (DabPumpsApi.async_fetch_install_list none ret st).2.1.install_map_ts = st.install_map_ts) := by
  constructor
  · intro st r ret hempty
    unfold DabPumpsApi.async_fetch_install_list DabPumpsApi.fetchRawOr
    simp [hempty]
  · intro st status sc j rest ret hs hres hempty
    unfold DabPumpsApi.async_fetch_install_list DabPumpsApi.fetchRawOr
      DabPumpsApi._async_send_request client_send_request
    rw [hs]
    cases hd : st.diag_registered <;>
      simp [DabPumpsApi.classifyResponse, DabPumpsApi._async_update_diagnostics, hd,
        hres, hempty]

/-- Witness for fetch_install_list_empty_data_error: an empty values payload,
given directly and served from the network, raises the data error and leaves
the (empty) remembered map and timestamp unchanged. -/
theorem fetch_install_list_empty_data_error_witness :
    (DabPumpsApi.async_fetch_install_list (some (.obj [("values", .arr [])])) .DATA st0 =
      (.error (.dataError "No installations found in data"), st0, [])) ∧
    ((DabPumpsApi.async_fetch_install_list none .DATA
        { st0 with script := [.resp { success := true, status := "200", body := .json (.obj [("values", .arr [])]) }] }).1 =
      .error (.dataError "No installations found in data") ∧
     (DabPumpsApi.async_fetch_install_list none .DATA
        { st0 with script := [.resp { success := true, status := "200", body := .json (.obj [("values", .arr [])]) }] }).2.1.install_map =
       ({ st0 with script := [.resp { success := true, status := "200", body := .json (.obj [("values", .arr [])]) }] } : St).install_map ∧
     (DabPumpsApi.async_fetch_install_list none .DATA
        { st0 with script := [.resp { success := true, status := "200", body := .json (.obj [("values", .arr [])]) }] }).2.1.install_map_ts =
       ({ st0 with script := [.resp { success := true, status := "200", body := .json (.obj [("values", .arr [])]) }] } : St).install_map_ts) :=
  ⟨fetch_install_list_empty_data_error.1 st0 (.obj [("values", .arr [])]) .DATA rfl,
   fetch_install_list_empty_data_error.2 _ "200" [] (.obj [("values", .arr [])]) [] .DATA rfl rfl rfl⟩

/-- create_id yields only lowercase letters, digits, underscores, hyphens. -/
theorem create_id_chars (args : List String) :
    ((DabPumpsApi.create_id args).data.all DabPumpsApi.isAllowedIdChar) = true := by
  unfold DabPumpsApi.create_id
  simp only [List.all_eq_true]
  intro c hc
  exact List.of_mem_filter hc

/-- dictSet preserves an entry predicate when the inserted pair satisfies
it. -/
theorem dictSet_forall {κ α : Type} [BEq κ] (P : κ × α → Prop) (m : List (κ × α))
    (k : κ) (v : α) (hm : ∀ kv ∈ m, P kv) (hkv : P (k, v)) :
    ∀ kv ∈ dictSet m k v, P kv := by
  intro kv hmem
  unfold dictSet at hmem
  split at hmem
  · rcases List.mem_map.mp hmem with ⟨kv0, h0, heq⟩
    by_cases hk : (kv0.1 == k) = true
    · simp only [hk, if_true] at heq
      rw [← heq]
      exact hkv
    · simp only [hk] at heq
      simp at heq
      rw [← heq]
      exact hm kv0 h0
  · rcases List.mem_append.mp hmem with h | h
    · exact hm kv h
    · simp at h
      rw [h]
      exact hkv

/-- Unfolding step of dictUpdate. -/
theorem dictUpdate_cons {κ α : Type} [BEq κ] (m : List (κ × α)) (a : κ × α)
    (rest : List (κ × α)) :
    dictUpdate m (a :: rest) = dictUpdate (dictSet m a.1 a.2) rest := rfl

/-- dictUpdate preserves an entry predicate satisfied by both maps. -/
theorem dictUpdate_forall {κ α : Type} [BEq κ] (P : κ × α → Prop)
    (new m : List (κ × α)) (hm : ∀ kv ∈ m, P kv) (hn : ∀ kv ∈ new, P kv) :
    ∀ kv ∈ dictUpdate m new, P kv := by
  induction new generalizing m with
  | nil =>
    intro kv hkv
    exact hm kv (by simpa [dictUpdate] using hkv)
  | cons a rest ih =>
    intro kv hkv
    rw [dictUpdate_cons] at hkv
    have ha : P (a.1, a.2) := by
      have := hn a (by simp)
      simpa using this
    exact ih (dictSet m a.1 a.2)
      (dictSet_forall P m a.1 a.2 hm ha)
      (fun kv2 h2 => hn kv2 (by simp [h2])) kv hkv

/-- A successful dictGet returns an entry of the map, stored under the looked
up key. -/
theorem dictGet_mem {κ α : Type} [BEq κ] [LawfulBEq κ] (m : List (κ × α)) (k : κ)
    (v : α) (h : dictGet m k = some v) : (k, v) ∈ m := by
  unfold dictGet at h
  rcases hf : m.find? (fun kv => kv.1 == k) with _ | kv
  · rw [hf] at h
    simp at h
  · rw [hf] at h
    simp at h
    have hp := List.find?_some hf
    have hmem := List.mem_of_find?_eq_some hf
    simp at hp
    rw [← h, ← hp]
    simpa using hmem

/-- The statusses processed for one device all satisfy the status-map
invariant: each is stored under create_id of its own serial and key. -/
theorem processStatusses_inv (serial : String) (values : List (String × Json)) :
    ∀ kv ∈ DabPumpsApi.processStatusses serial values,
      kv.1 = DabPumpsApi.create_id [kv.2.serial, kv.2.key] := by
  unfold DabPumpsApi.processStatusses
  suffices h : ∀ acc : List (String × DabPumpsStatus),
      (∀ kv ∈ acc, kv.1 = DabPumpsApi.create_id [kv.2.serial, kv.2.key]) →
      ∀ kv ∈ values.foldl (fun acc kv =>
        if Json.beq kv.2 (Json.str "h") then acc
        else dictSet acc (DabPumpsApi.create_id [serial, kv.1])
          { serial := serial, key := kv.1, val := kv.2 }) acc,
        kv.1 = DabPumpsApi.create_id [kv.2.serial, kv.2.key] by
    intro kv hkv
    exact h [] (by simp) kv hkv
  induction values with
  | nil =>
    intro acc hacc kv hkv
    exact hacc kv (by simpa using hkv)
  | cons a rest ih =>
    intro acc hacc kv hkv
    simp only [List.foldl_cons] at hkv
    by_cases hb : Json.beq a.2 (Json.str "h") = true
    · rw [if_pos hb] at hkv
      exact ih acc hacc kv hkv
    · rw [if_neg hb] at hkv
      exact ih _ (dictSet_forall _ acc _ _ hacc rfl) kv hkv

/-- The transport layer leaves the cached status map unchanged. -/
theorem send_status_map_eq (c : String) (req : Request) (st : St)
    (r : Except ApiErr SendValue) (st1 : St) (tr1 : List Event)
    (h : DabPumpsApi._async_send_request c req st = (r, st1, tr1)) :
    st1.status_map = st.status_map := by
  obtain ⟨ck, sc, hse⟩ := send_state_eq c req st
  rw [h] at hse
  dsimp only at hse
  rw [hse]

/-- The retrieve-unless-given step leaves the cached status map unchanged. -/
theorem fetchRawOr_status_map_eq (c : String) (req : Request) (tm : String)
    (raw0 : Option Json) (st : St) (r : Except ApiErr Json) (st1 : St)
    (tr1 : List Event)
    (h : DabPumpsApi.fetchRawOr c req tm raw0 st = (r, st1, tr1)) :
    st1.status_map = st.status_map := by
  obtain ⟨ck, sc, hse⟩ := fetchRawOr_state_eq c req tm raw0 st
  rw [h] at hse
  dsimp only at hse
  rw [hse]

/-- Fetching device statusses preserves the status-map invariant. -/
theorem statusses_preserves_inv (st : St) (serial : String) (raw0 : Option Json)
    (ret : DabPumpsRet) (hinv : statusInv st.status_map) :
    statusInv (DabPumpsApi.async_fetch_device_statusses serial raw0 ret st).2.1.status_map := by
  unfold DabPumpsApi.async_fetch_device_statusses
  rcases hf : DabPumpsApi.fetchRawOr ("statusses " ++ serial)
      { method := "GET", url := DABPUMPS_API_URL ++ "/dumstate/" ++ serial }
      "status response is not a JSON object" raw0 st with ⟨r, st1, tr1⟩
  have hst1 : st1.status_map = st.status_map :=
    fetchRawOr_status_map_eq _ _ _ raw0 st r st1 tr1 hf
  have hinv1 : statusInv st1.status_map := by
    rw [hst1]
    exact hinv
  cases r with
  | error e => simpa using hinv1
  | ok raw =>
    dsimp only
    split
    · simpa using hinv1
    · cases ret <;>
        exact dictUpdate_forall _ _ _ hinv1
          (processStatusses_inv serial (DabPumpsApi.statusValues raw))

/-- Changing a device status preserves the status-map invariant. -/
theorem change_preserves_inv (st : St) (serial key : String) (value : Json)
    (hinv : statusInv st.status_map) :
    statusInv (DabPumpsApi.async_change_device_status serial key value st).2.1.status_map := by
  unfold DabPumpsApi.async_change_device_status
  dsimp only
  rcases hg : dictGet st.status_map (DabPumpsApi.create_id [serial, key]) with _ | status
  · simpa using hinv
  · dsimp only
    by_cases hb : Json.beq status.val value = true
    · simp only [hb, if_true]
      exact hinv
    · simp only [hb]
      simp only [Bool.false_eq_true, if_false]
      have hmem := dictGet_mem st.status_map (DabPumpsApi.create_id [serial, key]) status hg
      have hkey : DabPumpsApi.create_id [serial, key] =
          DabPumpsApi.create_id [status.serial, status.key] :=
        hinv (DabPumpsApi.create_id [serial, key], status) hmem
      have hinv2 : statusInv (dictSet st.status_map
          (DabPumpsApi.create_id [serial, key]) { status with val := value }) :=
        dictSet_forall _ st.status_map _ _ hinv (by simpa using hkey)
      split
      · rename_i e st2 tr2 heq
        have h2 := send_status_map_eq _ _ _ _ st2 tr2 heq
        dsimp only at h2 ⊢
        rw [h2]
        exact hinv2
      · rename_i v2 st2 tr2 heq
        have h2 := send_status_map_eq _ _ _ _ st2 tr2 heq
        dsimp only at h2 ⊢
        rw [h2]
        exact hinv2

/-- Fetching installation details preserves the status-map invariant. -/
theorem details_preserves_inv (st : St) (install_id : Json) (raw0 : Option Json)
    (ret : DabPumpsRet) (hinv : statusInv st.status_map) :
    statusInv (DabPumpsApi.async_fetch_install_details install_id raw0 ret st).2.1.status_map := by
  unfold DabPumpsApi.async_fetch_install_details
  rcases hf : DabPumpsApi.fetchRawOr "installation details"
      { method := "GET", url := DABPUMPS_API_URL ++ "/api/v1/installation/" ++ install_id.display }
      "installation details response is not a JSON object" raw0 st with ⟨r, st1, tr1⟩
  have hst1 : st1.status_map = st.status_map :=
    fetchRawOr_status_map_eq _ _ _ raw0 st r st1 tr1 hf
  have hinv1 : statusInv st1.status_map := by
    rw [hst1]
    exact hinv
  cases r with
  | error e => simpa using hinv1
  | ok raw =>
    dsimp only
    split
    · simpa using hinv1
    · split
      · simpa using hinv1
      · split
        · simpa using hinv1
        · cases ret <;>
            exact fun kv hkv => hinv1 kv (List.mem_of_mem_filter hkv)

/-- C9: the status-map invariant (every entry is stored under create_id of
its own serial and key) is preserved by fetching device statusses, changing
a device status and fetching installation details; and under the invariant
every key consists only of lowercase letters, digits, underscores and
hyphens. -/
theorem status_map_invariant_preserved :
    (∀ (st : St) (serial : String) (raw0 : Option Json) (ret : DabPumpsRet),
       statusInv st.status_map →
       statusInv (DabPumpsApi.async_fetch_device_statusses serial raw0 ret st).2.1.status_map) ∧
    (∀ (st : St) (serial key : String) (value : Json),
       statusInv st.status_map →
       statusInv (DabPumpsApi.async_change_device_status serial key value st).2.1.status_map) ∧
    (∀ (st : St) (install_id : Json) (raw0 : Option Json) (ret : DabPumpsRet),
       statusInv st.status_map →
       statusInv (DabPumpsApi.async_fetch_install_details install_id raw0 ret st).2.1.status_map) ∧
    (∀ m : List (String × DabPumpsStatus), statusInv m →
       ∀ kv ∈ m, (kv.1.data.all DabPumpsApi.isAllowedIdChar) = true) := by
  refine ⟨?_, ?_, ?_, ?_⟩
  · intro st serial raw0 ret hinv
    exact statusses_preserves_inv st serial raw0 ret hinv
  · intro st serial key value hinv
    exact change_preserves_inv st serial key value hinv
  · intro st install_id raw0 ret hinv
    exact details_preserves_inv st install_id raw0 ret hinv
  · intro m hinv kv hkv
    rw [hinv kv hkv]
    exact create_id_chars [kv.2.serial, kv.2.key]

/-- The one-entry status map of the witness run satisfies the invariant. -/
theorem witness_status_inv :
    statusInv [("s_k", { serial := "s", key := "k", val := Json.str "0" })] := by
  intro kv hkv
  simp at hkv
  subst hkv
  decide

/-- Witness for status_map_invariant_preserved: the invariant of a concrete
one-entry status map survives a status fetch, a status change and a details
fetch, and its keys use only the allowed characters. -/
theorem status_map_invariant_preserved_witness :
    statusInv (DabPumpsApi.async_fetch_device_statusses "s"
      (some (.obj [("status", .obj [("k2", .str "5")])])) .DATA
      { st0 with status_map := [("s_k", { serial := "s", key := "k", val := .str "0" })] }).2.1.status_map ∧
    statusInv (DabPumpsApi.async_change_device_status "s" "k" (.str "1")
      { st0 with status_map := [("s_k", { serial := "s", key := "k", val := .str "0" })] }).2.1.status_map ∧
    statusInv (DabPumpsApi.async_fetch_install_details (.str "i")
      (some (.obj [("installation_id", .str "i")])) .DATA
      { st0 with status_map := [("s_k", { serial := "s", key := "k", val := .str "0" })] }).2.1.status_map ∧
    (∀ kv ∈ [(("s_k" : String), ({ serial := "s", key := "k", val := .str "0" } : DabPumpsStatus))],
      (kv.1.data.all DabPumpsApi.isAllowedIdChar) = true) :=
  ⟨status_map_invariant_preserved.1
      { st0 with status_map := [("s_k", { serial := "s", key := "k", val := .str "0" })] }
      "s" (some (.obj [("status", .obj [("k2", .str "5")])])) .DATA witness_status_inv,
   status_map_invariant_preserved.2.1
      { st0 with status_map := [("s_k", { serial := "s", key := "k", val := .str "0" })] }
      "s" "k" (.str "1") witness_status_inv,
   status_map_invariant_preserved.2.2.1
      { st0 with status_map := [("s_k", { serial := "s", key := "k", val := .str "0" })] }
      (.str "i") (some (.obj [("installation_id", .str "i")])) .DATA witness_status_inv,
   status_map_invariant_preserved.2.2.2
      [("s_k", { serial := "s", key := "k", val := .str "0" })] witness_status_inv⟩

/-- Equation form of send_request_events. -/
theorem send_request_events_eq (c : String) (req : Request) (st : St)
    (r : Except ApiErr SendValue) (st1 : St) (tr1 : List Event)
    (h : DabPumpsApi._async_send_request c req st = (r, st1, tr1)) :
    tr1.filter Event.isRequest = [Event.request req] := by
  have hp := send_request_events c req st
  rw [h] at hp
  exact hp

/-- C10: changing a device status returns False with no request and an
unchanged cached map when the derived identifier is absent or the cached
value already equals the requested one; and it returns True only when a
single POST request was issued and completed without raising. -/
theorem change_device_status_spec :
    (∀ (st : St) (serial key : String) (value : Json),
       dictGet st.status_map (DabPumpsApi.create_id [serial, key]) = none →
       DabPumpsApi.async_change_device_status serial key value st = (.ok false, st, [])) ∧
    (∀ (st : St) (serial key : String) (value : Json) (v : DabPumpsStatus),
       dictGet st.status_map (DabPumpsApi.create_id [serial, key]) = some v →
       Json.beq v.val value = true →
       DabPumpsApi.async_change_device_status serial key value st = (.ok false, st, [])) ∧
    (∀ (st : St) (serial key : String) (value : Json),
       (DabPumpsApi.async_change_device_status serial key value st).1 = .ok true →
       ∃ r, ((DabPumpsApi.async_change_device_status serial key value st).2.2.filter
         Event.isRequest) = [Event.request r] ∧ r.method = "POST") := by
  refine ⟨?_, ?_, ?_⟩
  · intro st serial key value hg
    unfold DabPumpsApi.async_change_device_status
    dsimp only
    rw [hg]
  · intro st serial key value v hg hb
    unfold DabPumpsApi.async_change_device_status
    dsimp only
    rw [hg]
    simp [hb]
  · intro st serial key value h
    unfold DabPumpsApi.async_change_device_status at h ⊢
    dsimp only at h ⊢
    rcases hg : dictGet st.status_map (DabPumpsApi.create_id [serial, key]) with _ | status
    · rw [hg] at h
      simp at h
    · rw [hg] at h
      dsimp only at h
      by_cases hb : Json.beq status.val value = true
      · rw [if_pos hb] at h
        simp at h
      · rw [if_neg hb] at h
        dsimp only
        rw [if_neg hb]
        split at h
        · simp at h
        · rename_i v2 st2 tr2 heq
          exact ⟨_, send_request_events_eq _ _ _ _ _ _ heq, rfl⟩

/-- Witness for change_device_status_spec: on a concrete one-entry map the
absent-key and unchanged-value calls return False untouched, and a changed
value with a scripted successful response returns True after one POST. -/
theorem change_device_status_spec_witness :
    (DabPumpsApi.async_change_device_status "x" "y" (.str "1")
      { st0 with status_map := [("s_k", { serial := "s", key := "k", val := .str "0" })] } =
      (.ok false, { st0 with status_map := [("s_k", { serial := "s", key := "k", val := .str "0" })] }, [])) ∧
    (DabPumpsApi.async_change_device_status "s" "k" (.str "0")
      { st0 with status_map := [("s_k", { serial := "s", key := "k", val := .str "0" })] } =
      (.ok false, { st0 with status_map := [("s_k", { serial := "s", key := "k", val := .str "0" })] }, [])) ∧
    (∃ r, ((DabPumpsApi.async_change_device_status "s" "k" (.str "1")
      { st0 with status_map := [("s_k", { serial := "s", key := "k", val := .str "0" })],
                 script := [.resp { success := true, status := "200", body := .empty }] }).2.2.filter
        Event.isRequest) = [Event.request r] ∧ r.method = "POST") :=
  ⟨change_device_status_spec.1 _ "x" "y" (.str "1") rfl,
   change_device_status_spec.2.1 _ "s" "k" (.str "0")
     { serial := "s", key := "k", val := .str "0" } rfl rfl,
   change_device_status_spec.2.2 _ "s" "k" (.str "1") rfl⟩
